import Mathlib

/-!
Verification of the gold-predictor core: a shallow embedding, in Lean 4, of
the quota-aware fetch/cache policy (`gold_predictor.py`), the technical
indicator engine (`technical_indicators.py`) and the macro impact scorer
(`financial_scraper.py`), together with theorems settling the stated
properties of those components.

Modelling conventions:
* Python floats are modelled as `Rat`.  Every constant appearing in the
  source (`1.5`, `0.015`, `1.3`, ...) is written as the exact rational of
  its decimal literal; in every comparison proved below the operands are
  far enough apart that the binary-float computation of the source takes
  the same branch as the rational model.
* `round(x, 2)` is modelled by `round2` (floor of `x*100 + 1/2` over 100).
  Python rounds half-to-even on the underlying binary double; no value
  rounded in any theorem below sits at a half-way tie, so the models agree.
* Wall-clock instants are `Nat` seconds; calendar dates are `Nat` day
  numbers.  The network is a parameter (`Upstream`): a transport error
  (exception inside `requests.get`), or a completed response with an HTTP
  status and a parsed JSON body.
* Mutation of `self` is explicit state passing on `PredictorState`.
-/

namespace GoldPredictor

/- Batteries marks the rational-number operations irreducible; re-enable
kernel reduction locally so that concrete runs of the embedded functions
can be checked by `decide`. -/
attribute [local semireducible] Rat.add Rat.mul Rat.inv Rat.sub Rat.ofScientific

/-- Model of `round(x, 2)`: round to two decimal places.  Ties round up
here whereas Python rounds the underlying double half-to-even; no use in
this development sits at a tie. -/
def round2 (q : Rat) : Rat := ((q * 100 + 1/2).floor : Rat) / 100

/-! ## Technical indicator engine (`technical_indicators.py`) -/

/-- `calculate_sma`: trailing simple moving average.  Returns `[]` when the
series is shorter than `period`; otherwise one value per trailing window,
each rounded to 2 decimals exactly as the source does
(`sma.append(round(avg, 2))`).  All call sites use `period ≥ 1` (the
source would raise on `period = 0`). -/
def calculate_sma (prices : List Rat) (period : Nat) : List Rat :=
  if prices.length < period then []
  else
    (List.range (prices.length + 1 - period)).map (fun i =>
      round2 (((prices.drop i).take period).sum / period))

/-- Typical prices `(high+low+close)/3`, one per bar.  The source indexes
the three lists in lockstep (`for i in range(len(close_prices))`); callers
always pass equal-length lists, which `zipWith` models. -/
def typical_prices (hs ls cs : List Rat) : List Rat :=
  List.zipWith (fun h lc => (h + lc.1 + lc.2) / 3) hs (ls.zip cs)

/-- `calculate_cci`: Commodity Channel Index over `period` bars.  For each
window: mean deviation of typical prices from the (already rounded) SMA of
typical prices; CCI is `0` when the mean deviation is `0`, otherwise
`(tp - sma) / (0.015 * meanDev)`; each value rounded to 2 decimals. -/
def calculate_cci (hs ls cs : List Rat) (period : Nat) : List Rat :=
  if hs.length < period then []
  else
    let tps := typical_prices hs ls cs
    let sma_typical := calculate_sma tps period
    if sma_typical = [] then []
    else
      (List.range sma_typical.length).map (fun i =>
        let period_prices := (tps.drop i).take period
        let current_tp := tps.getD (period - 1 + i) 0
        let current_sma := sma_typical.getD i 0
        let mean_deviation := (period_prices.map (fun x => |x - current_sma|)).sum / period
        round2 (if mean_deviation = 0 then 0
                else (current_tp - current_sma) / ((15/1000) * mean_deviation)))

/-- `categorize_cci`: thresholds on the CCI value (note the inverted
buy/sell orientation, reproduced from the source). -/
def categorize_cci (cci_value : Rat) : String × String :=
  if cci_value > 200 then ("Strong Sell", "🔥")
  else if cci_value > 100 then ("Sell", "📉")
  else if cci_value > -100 then ("Neutral", "📊")
  else if cci_value > -200 then ("Buy", "💎")
  else ("Strong Buy", "🚨")

/-- `categorize_ma_trend`: percent deviation of price from the MA.  The
source divides by `ma_value`; all call sites have a positive MA. -/
def categorize_ma_trend (current_price ma_value : Rat) : String × String :=
  let price_diff_pct := (current_price - ma_value) / ma_value * 100
  if price_diff_pct > 5 then ("Strong Buy", "🚀")
  else if price_diff_pct > 2 then ("Buy", "📈")
  else if price_diff_pct > -2 then ("Neutral", "📊")
  else if price_diff_pct > -5 then ("Sell", "📉")
  else ("Strong Sell", "🔥")

/-- `categorize_ma_crossover`: percent spread between fast and slow MA,
with thresholds picked by the fast period's bucket (`_slow_period` is
accepted and ignored, as in the source). -/
def categorize_ma_crossover (ma_fast ma_slow : Rat) (fast_period _slow_period : Nat) :
    String × String :=
  let spread_pct := (ma_fast - ma_slow) / ma_slow * 100
  let thresholds : Rat × Rat :=
    if fast_period ≤ 10 then (3/2, 1/2)
    else if fast_period ≤ 20 then (2, 4/5)
    else (1, 3/10)
  if spread_pct > thresholds.1 then ("Strong Buy", "🚀")
  else if spread_pct > thresholds.2 then ("Buy", "📈")
  else if spread_pct > -thresholds.2 then ("Neutral", "📊")
  else if spread_pct > -thresholds.1 then ("Sell", "📉")
  else ("Strong Sell", "🔥")

/-- The fixed indicator weight table of `calculate_weighted_sentiment`. -/
def weightsTable : List (String × Nat) :=
  [("CCI-20", 15), ("MA5", 2), ("MA20", 8), ("MA40", 10), ("MA60", 10),
   ("MA5-MA10", 8), ("MA10-MA20", 12), ("MA20-MA40", 20), ("MA20-MA60", 18),
   ("MA40-MA60", 5)]

/-- The category score table of `calculate_weighted_sentiment`. -/
def scoresTable : List (String × Int) :=
  [("Strong Buy", 2), ("Buy", 1), ("Neutral", 0), ("Sell", -1), ("Strong Sell", -2)]

/-- `scores.get(category, 0)`: unknown categories score `0`. -/
def scoreOf (category : String) : Int := (scoresTable.lookup category).getD 0

/-- One iteration of `calculate_weighted_sentiment`'s loop: indicators in
the weight table add `score * weight` and their weight to the
accumulators, others are skipped. -/
def sentiment_step (acc : Int × Nat) (p : String × String) : Int × Nat :=
  match weightsTable.lookup p.1 with
  | some w => (acc.1 + scoreOf p.2 * w, acc.2 + w)
  | none => acc

/-- `calculate_weighted_sentiment`: iterate over the indicator map (pairs
of indicator name and category, the first tuple component the source
extracts), accumulating `score * weight` and the weight for every
indicator found in the weight table; then the threshold chain on the
weighted average. -/
def calculate_weighted_sentiment (indicator_data : List (String × String)) :
    String × String × Rat :=
  let acc := indicator_data.foldl sentiment_step ((0 : Int), (0 : Nat))
  if acc.2 = 0 then ("Neutral", "📊", 0)
  else
    let avg : Rat := (acc.1 : Rat) / (acc.2 : Rat)
    if avg ≥ 13/10 then ("Strong Buy", "🚀", avg)
    else if avg ≥ 2/5 then ("Buy", "📈", avg)
    else if avg ≥ -(2/5) then ("Neutral", "📊", avg)
    else if avg ≥ -(13/10) then ("Sell", "📉", avg)
    else ("Strong Sell", "🔥", avg)

/-! ## Indicator assembly (`get_comprehensive_analysis`, indicator step)

`get_comprehensive_analysis` extracts chronological high/low/close lists
from the fetched records, then assembles `indicator_data`: the CCI entry,
one entry per moving-average period present, and one per crossover pair
present.  Entries are `(category, icon, value, extra)` tuples in the
source; `IndicatorEntry` is their record form (`extra` is absent for the
CCI entry). -/

structure IndicatorEntry where
  category : String
  icon : String
  value : Rat
  extra : Option Rat
  deriving DecidableEq

/-- Indicator-map key for a moving average period (`f'MA{period}'`). -/
def maName (p : Nat) : String := "MA" ++ toString p

/-- The `CCI-20` entry: present exactly when `calculate_cci` returned a
nonempty list (`if cci_values:`), carrying its last value. -/
def cci_segment (hs ls cs : List Rat) : List (String × IndicatorEntry) :=
  match (calculate_cci hs ls cs 20).getLast? with
  | some c => [("CCI-20", ⟨(categorize_cci c).1, (categorize_cci c).2, c, none⟩)]
  | none => []

/-- One moving-average entry: present exactly when `calculate_sma`
returned a nonempty list (`if ma:`). -/
def ma_segment (cs : List Rat) (current_price : Rat) (p : Nat) :
    List (String × IndicatorEntry) :=
  match (calculate_sma cs p).getLast? with
  | some m =>
      [(maName p, ⟨(categorize_ma_trend current_price m).1,
                   (categorize_ma_trend current_price m).2, m,
                   some (current_price - m)⟩)]
  | none => []

/-- One crossover entry: present exactly when both MAs are computable
(`if ma_fast and ma_slow:`); value is the spread, extra the percent
spread. -/
def crossover_segment (cs : List Rat) (f sl : Nat) (nm : String) :
    List (String × IndicatorEntry) :=
  match (calculate_sma cs f).getLast?, (calculate_sma cs sl).getLast? with
  | some mf, some ms =>
      [(nm, ⟨(categorize_ma_crossover mf ms f sl).1,
             (categorize_ma_crossover mf ms f sl).2, mf - ms,
             some ((mf - ms) / ms * 100)⟩)]
  | _, _ => []

/-- The `indicator_data` map of `get_comprehensive_analysis`, in the
source's insertion order, built from chronological high/low/close lists
(the caller has already reversed the API records and checked them
nonempty; `current_price = close_prices[-1]`). -/
def build_indicator_data (hs ls cs : List Rat) : List (String × IndicatorEntry) :=
  let current_price := cs.getLast?.getD 0
  cci_segment hs ls cs
    ++ ma_segment cs current_price 5 ++ ma_segment cs current_price 20
    ++ ma_segment cs current_price 40 ++ ma_segment cs current_price 60
    ++ crossover_segment cs 5 10 "MA5-MA10" ++ crossover_segment cs 10 20 "MA10-MA20"
    ++ crossover_segment cs 20 40 "MA20-MA40" ++ crossover_segment cs 20 60 "MA20-MA60"
    ++ crossover_segment cs 40 60 "MA40-MA60"

/-! ## Macro impact scorer (`financial_scraper.calculate_gold_impact_score`) -/

/-- One instrument row of the market-data map handed to
`calculate_gold_impact_score`.  `change_percent` is `none` when the field
is missing/falsy or fails to parse (the source skips the instrument in
either case, the latter via the caught exception). -/
structure Instrument where
  name : String
  change_percent : Option Rat
  weight : Rat
  gold_impact : String
  deriving DecidableEq

/-- Result record of `calculate_gold_impact_score`.  A signal row carries
the instrument name, its change and the direction word; the source
formats these into one string, which is display glue. -/
structure ImpactResult where
  overall_score : Rat
  total_weight : Rat
  signals : List (String × Rat × String)
  recommendation : String
  confidence : Rat
  deriving DecidableEq

/-- One iteration of `calculate_gold_impact_score`'s loop: instruments
with a usable change percentage contribute `±change*weight` (negated for
inverse impact) and their weight, and append a signal row when the move
is significant; others are skipped. -/
def impact_step (acc : Rat × Rat × List (String × Rat × String)) (d : Instrument) :
    Rat × Rat × List (String × Rat × String) :=
  match d.change_percent with
  | some change =>
      let contrib : Rat × String :=
        if d.gold_impact = "inverse" then
          (-change * d.weight, if change > 0 then "bearish" else "bullish")
        else
          (change * d.weight, if change > 0 then "bullish" else "bearish")
      let sigs := if |change| > 1/2 then acc.2.2 ++ [(d.name, change, contrib.2)]
                  else acc.2.2
      (acc.1 + contrib.1, acc.2.1 + d.weight, sigs)
  | none => acc

/-- `calculate_gold_impact_score`: `None` on an empty (falsy) map;
otherwise accumulate `±change*weight` per usable instrument (inverse
impact negates), normalize by the accumulated weight when positive, and
derive recommendation and capped confidence. -/
def calculate_gold_impact_score (market_data : List Instrument) : Option ImpactResult :=
  if market_data = [] then none
  else
    let acc := market_data.foldl impact_step
      ((0 : Rat), (0 : Rat), ([] : List (String × Rat × String)))
    let normalized_score := if acc.2.1 > 0 then acc.1 / acc.2.1 else 0
    some { overall_score := normalized_score
           total_weight := acc.2.1
           signals := acc.2.2
           recommendation :=
             if normalized_score > 3/10 then "BUY"
             else if normalized_score < -(3/10) then "SELL" else "HOLD"
           confidence := min (|normalized_score| * 100) 95 }

/-! ## Predictor state and fetch/cache policy (`gold_predictor.py`) -/

/-- `self.monthly_limit` — fixed in `__init__`, never mutated. -/
def monthly_limit : Nat := 600

/-- The monthly-limit product codes accepted by `fetch_historical_data`
(`self.available_products.keys()`). -/
def available_products : List String :=
  ["XAU", "XAG", "XPT", "XPD", "HKD", "TWAU", "Au9995", "Au9999", "Au100g",
   "PT9995", "Ag9999", "AuT+D", "AgT+D"]

/-- The embedded API error-code table (`self.error_codes`). -/
def error_codes : List (Int × String) :=
  [(10001, "错误的请求KEY (Invalid API Key)"),
   (10002, "该KEY无请求权限 (Key has no request permission)"),
   (10003, "KEY过期 (API Key expired)"),
   (10004, "未知的请求源 (Unknown request source)"),
   (10005, "被禁止的IP (Banned IP address)"),
   (10006, "被禁止的KEY (Banned API Key)"),
   (10007, "请求超过次数限制 (Request limit exceeded)"),
   (10008, "接口维护 (API under maintenance)")]

/-- `get_error_description`: table lookup with the generic fallback. -/
def get_error_description (error_code : Int) : String :=
  match error_codes.lookup error_code with
  | some d => d
  | none => "Unknown error code: " ++ toString error_code

/-- One quote row of the spot endpoint's `data.list`
(only the fields the core reads: `type` and `price`). -/
structure GoldItem where
  type : String
  price : Rat
  deriving DecidableEq

/-- A parsed JSON body: the optional embedded `code`/`msg` fields and the
optional `data.list` payload (the historical endpoint's record list is
likewise summarised by this shape; the claims never inspect it beyond
identity and emptiness). -/
structure ApiBody where
  code : Option Int
  msg : Option String
  list : Option (List GoldItem)
  deriving DecidableEq

/-- Outcome of one `requests.get`: an exception (timeout, connection
error, JSON parse failure — anything the `except` clause catches), or a
completed response with its HTTP status and body. -/
inductive Upstream where
  | transportError (msg : String)
  | response (status : Nat) (body : ApiBody)
  deriving DecidableEq

/-- The mutable fields of `GoldPricePredictor` that the core reads or
writes (configuration constants are top-level definitions). -/
structure PredictorState where
  api_calls_today : Nat
  last_call_date : Option Nat
  estimated_monthly_calls : Rat
  calls_this_month : Nat
  last_fetch_time : Option Nat
  cached_price_usd : Option Rat
  cached_london_price : Option Rat
  cached_api_data : Option ApiBody
  usd_gbp_rate : Rat
  last_error_code : Option Int
  last_error_message : Option String
  deriving DecidableEq

/-- The `__init__` state. -/
def initState : PredictorState :=
  { api_calls_today := 0, last_call_date := none, estimated_monthly_calls := 0
    calls_this_month := 0, last_fetch_time := none, cached_price_usd := none
    cached_london_price := none, cached_api_data := none, usd_gbp_rate := 79/100
    last_error_code := none, last_error_message := none }

/-- `clear_error_info`. -/
def clear_error_info (s : PredictorState) : PredictorState :=
  { s with last_error_code := none, last_error_message := none }

/-- `update_api_quota`: reset the daily counter on a new date, then
increment it (this function does not touch `calls_this_month`). -/
def update_api_quota (s : PredictorState) (today : Nat) : PredictorState :=
  let s := if s.last_call_date ≠ some today then
             { s with api_calls_today := 0, last_call_date := some today }
           else s
  { s with api_calls_today := s.api_calls_today + 1 }

/-- `track_api_call`: reset the daily counter on a new date, increment
both counters, and refresh the monthly estimate.  Defined exactly as in
the source; note that no fetch path of the module ever invokes it. -/
def track_api_call (s : PredictorState) (today : Nat) (current_day : Nat) : PredictorState :=
  let s := if s.last_call_date ≠ some today then
             { s with api_calls_today := 0, last_call_date := some today }
           else s
  let s := { s with api_calls_today := s.api_calls_today + 1,
                    calls_this_month := s.calls_this_month + 1 }
  if 0 < current_day then
    { s with estimated_monthly_calls := ((s.calls_this_month : Rat) / current_day) * 30 }
  else s

/-- `estimated_daily_budget = monthly_limit / days_in_month` with the
fixed `days_in_month = 30` (exactly `20`). -/
def estimated_daily_budget : Rat := (monthly_limit : Rat) / 30

/-- `check_quota_availability`: deny when `api_calls_today + calls_needed`
exceeds `estimated_daily_budget * 1.5`. -/
def check_quota_availability (api_calls_today : Nat) (calls_needed : Nat) : Bool × String :=
  if (api_calls_today : Rat) + calls_needed > estimated_daily_budget * (3/2) then
    (false, "Daily quota exceeded. Used " ++ toString api_calls_today ++
            ", requesting " ++ toString calls_needed ++ " more")
  else
    (true, "Quota available")

/-- Result triple of `fetch_historical_data`, plus an instrumentation bit
`upstream_called` recording whether control reached the `requests.get`
call (true exactly on the paths past quota check and validation). -/
structure HistResult where
  success : Bool
  data : Option ApiBody
  message : String
  upstream_called : Bool
  deriving DecidableEq

/-- Shared tail of both fetchers: status check, embedded error-code check
(`'code' in data and data['code'] != 1`), error bookkeeping.  `okMsg` is
the success message (the two fetchers differ there). -/
def handle_response (s : PredictorState) (u : Upstream) (okMsg : ApiBody → String) :
    (Bool × Option ApiBody × String) × PredictorState :=
  match u with
  | .transportError m => ((false, none, "Request failed: " ++ m), s)
  | .response status body =>
      if status = 200 then
        match body.code with
        | some c =>
            if c ≠ 1 then
              let s := { s with last_error_code := some c, last_error_message := body.msg }
              if (error_codes.lookup c).isSome then
                ((false, none, "API Error " ++ toString c ++ ": " ++ get_error_description c), s)
              else
                ((false, none, "API Error " ++ toString c ++ ": " ++
                               (body.msg.getD "Unknown error")), s)
            else
              ((true, some body, okMsg body), clear_error_info s)
        | none => ((true, some body, okMsg body), clear_error_info s)
      else
        ((false, none, "HTTP Error: " ++ toString status), s)

/-- `fetch_historical_data`: quota gate (bypassed by `force`), argument
validation, then `update_api_quota` and the upstream request.  `today` is
the current wall-clock date, `u` the network outcome. -/
def fetch_historical_data (s : PredictorState) (today : Nat) (u : Upstream)
    (product : String) (data_type : String) (limit : Int) (force : Bool) :
    HistResult × PredictorState :=
  let q := check_quota_availability s.api_calls_today 1
  if ¬force ∧ ¬q.1 then
    (⟨false, none, "Quota check failed: " ++ q.2, false⟩, s)
  else if product ∉ available_products then
    (⟨false, none, "Product " ++ product ++ " not available.", false⟩, s)
  else if data_type ∉ ["1", "2", "3"] then
    (⟨false, none, "Invalid type. Use: 1=daily, 2=weekly, 3=monthly", false⟩, s)
  else if limit ≤ 0 ∨ 1000 < limit then
    (⟨false, none, "Limit must be between 1 and 1000", false⟩, s)
  else
    let s := update_api_quota s today
    let r := handle_response s u
      (fun body => "Success: " ++ toString (body.list.getD []).length ++ " records")
    (⟨r.1.1, r.1.2.1, r.1.2.2, true⟩, r.2)

/-- `fetch_gold_price_from_api`: trading-hours gate (bypassed by `force`),
then the upstream request.  `is_trading` abstracts
`get_trading_schedule_info()['is_trading_hours']` (a pure function of the
London wall clock); the "Outside trading hours" message's embedded
timestamp is elided.  Note: no call-counter tracking happens on this
path. -/
def fetch_gold_price_from_api (s : PredictorState) (is_trading : Bool) (u : Upstream)
    (force : Bool) : (Bool × Option ApiBody × String) × PredictorState :=
  if ¬force ∧ ¬is_trading then
    ((false, none, "Outside trading hours."), s)
  else
    handle_response s u (fun _ => "Success")

/-- Cache age in whole minutes (`int((now - last).total_seconds() / 60)`).
With a monotone clock the elapsed time is nonnegative, where truncation
equals floor; `toNat` clamps the never-occurring negative case to `0`. -/
def ageMinutes (now t : Nat) : Nat := ((now : Int) - t).toNat / 60

/-- Result of `get_cached_or_fresh_data`, plus an instrumentation bit
`fetch_attempted` recording whether the `should_fetch` branch ran (i.e. a
fresh fetch was attempted). -/
structure CacheResult where
  success : Bool
  data : Option ApiBody
  source : String
  fetch_attempted : Bool
  deriving DecidableEq

/-- `get_cached_or_fresh_data`: fetch fresh data when forced, on the first
call, or when the cache is older than 1800 seconds; otherwise serve the
cached payload labelled with its age.  `fx` is the outcome of
`get_usd_gbp_rate` (which only updates the stored exchange rate);
the inner fetch runs with the default `force=False`, so the trading-hours
gate applies. -/
def get_cached_or_fresh_data (s : PredictorState) (now : Nat) (is_trading : Bool)
    (u : Upstream) (fx : Option Rat) (force_refresh : Bool) :
    CacheResult × PredictorState :=
  let should_fetch : Bool :=
    force_refresh || s.last_fetch_time.isNone ||
      (match s.last_fetch_time with
       | some t => decide (((now : Int) - t) > 1800)
       | none => true)
  if should_fetch then
    let s := match fx with
             | some r => { s with usd_gbp_rate := r }
             | none => s
    let r := fetch_gold_price_from_api s is_trading u false
    match r.1.2.1 with
    | some d =>
        if r.1.1 then
          (⟨true, some d, "LIVE London Gold Market", true⟩,
           { r.2 with cached_api_data := some d, last_fetch_time := some now })
        else (⟨false, none, r.1.2.2, true⟩, r.2)
    | none => (⟨false, none, r.1.2.2, true⟩, r.2)
  else
    match s.cached_api_data, s.last_fetch_time with
    | some d, some t =>
        (⟨true, some d, "Cached (" ++ toString (ageMinutes now t) ++ "min old)", false⟩, s)
    | some _, none =>
        -- unreachable: `should_fetch` holds whenever `last_fetch_time` is `none`
        (⟨false, none, "No data available", false⟩, s)
    | none, _ => (⟨false, none, "No data available", false⟩, s)

/-- The third component of `get_current_gold_price`'s result: the raw
London-gold quote row on the live path, the bare cached price on the
cached path (the source returns values of different shapes there). -/
inductive QuoteDetail where
  | item (g : GoldItem)
  | price (p : Rat)
  deriving DecidableEq

/-- `get_current_gold_price`: extract the London Gold row from fresh or
cached data; otherwise fall back to the last extracted price (Python
truthiness: a cached `0.0` is skipped), and finally to the hard-coded
`2650.0` estimate.  `none` models the uncaught `TypeError` the source
would raise if a price were cached with no fetch timestamp (unreachable
from the initial state). -/
def get_current_gold_price (s : PredictorState) (now : Nat) (is_trading : Bool)
    (u : Upstream) (fx : Option Rat) (force_refresh : Bool) :
    Option ((Rat × String × Option QuoteDetail) × PredictorState) :=
  let r := get_cached_or_fresh_data s now is_trading u fx force_refresh
  let extracted : Option GoldItem :=
    if r.1.success then
      match r.1.data with
      | some body =>
          match body.list with
          | some items => items.find? (fun it => it.type = "伦敦金")
          | none => none
      | none => none
    else none
  match extracted with
  | some item =>
      some ((item.price, r.1.source, some (.item item)),
            { r.2 with cached_price_usd := some item.price,
                       cached_london_price := some item.price })
  | none =>
      match r.2.cached_price_usd with
      | some p =>
          if p = 0 then some ((2650, "Fallback estimate", none), r.2)
          else
            match r.2.last_fetch_time with
            | some t =>
                some ((p, "Cached (" ++ toString (ageMinutes now t) ++ "min old)",
                       r.2.cached_london_price.map .price), r.2)
            | none => none
      | none => some ((2650, "Fallback estimate", none), r.2)

/-! ## Spec-side definitions

Restatements of the specification's formulas, used as refinement targets:
each is written from the spec's words, to be compared with the embedded
source definition above. -/

/-- Spec formulation of the technical fusion: weighted average
`Σ(score×weight)/Σ(weight)` over exactly the indicators present in the
weight table (missing indicators excluded from both sums), thresholds
`≥1.3 / ≥0.4 / ≥−0.4 / ≥−1.3` on the average, and Neutral with score `0`
when no weighted indicator is present. -/
def sentiment_spec (d : List (String × String)) : String × String × Rat :=
  let present := d.filter (fun p => (weightsTable.lookup p.1).isSome)
  let total_weight : Nat := (present.map (fun p => (weightsTable.lookup p.1).getD 0)).sum
  let weighted_score : Int :=
    (present.map (fun p => scoreOf p.2 * ((weightsTable.lookup p.1).getD 0 : Nat))).sum
  if total_weight = 0 then ("Neutral", "📊", 0)
  else
    let avg : Rat := (weighted_score : Rat) / (total_weight : Rat)
    if avg ≥ 13/10 then ("Strong Buy", "🚀", avg)
    else if avg ≥ 2/5 then ("Buy", "📈", avg)
    else if avg ≥ -(2/5) then ("Neutral", "📊", avg)
    else if avg ≥ -(13/10) then ("Sell", "📉", avg)
    else ("Strong Sell", "🔥", avg)

/-- Spec formulation of the macro fusion: per usable instrument the
contribution is `∓change×weight` by impact direction, the overall score is
`Σcontribution/Σweight` (`0` if no weight), recommendation by the
`±0.3` thresholds, confidence `min(|score|×100, 95)`, and the significant
moves (`|change| > 0.5`) listed as signals. -/
def impact_spec (market_data : List Instrument) : Option ImpactResult :=
  if market_data = [] then none
  else
    let usable := market_data.filter (fun d => d.change_percent.isSome)
    let contribution : Instrument → Rat := fun d =>
      if d.gold_impact = "inverse" then -(d.change_percent.getD 0) * d.weight
      else (d.change_percent.getD 0) * d.weight
    let direction : Instrument → String := fun d =>
      if d.gold_impact = "inverse" then
        (if d.change_percent.getD 0 > 0 then "bearish" else "bullish")
      else
        (if d.change_percent.getD 0 > 0 then "bullish" else "bearish")
    let total_weight : Rat := (usable.map (fun d => d.weight)).sum
    let total_score : Rat := (usable.map contribution).sum
    let overall_score := if total_weight = 0 then 0 else total_score / total_weight
    some { overall_score := overall_score
           total_weight := total_weight
           signals := (usable.filter (fun d => |d.change_percent.getD 0| > 1/2)).map
             (fun d => (d.name, d.change_percent.getD 0, direction d))
           recommendation :=
             if overall_score > 3/10 then "BUY"
             else if overall_score < -(3/10) then "SELL" else "HOLD"
           confidence := min (|overall_score| * 100) 95 }

/-- Spec formulation of an unrounded trailing moving average: the
arithmetic mean of the last `p` values (the "unrounded value" the spec
says categorization uses). -/
def trailingMean (prices : List Rat) (p : Nat) : Rat :=
  (prices.drop (prices.length - p)).sum / p

/-! ## Helper lemmas -/

theorem sentiment_foldl_eq (d : List (String × String)) (a : Int) (w : Nat) :
    d.foldl sentiment_step (a, w)
    = (a + ((d.filter (fun p => (weightsTable.lookup p.1).isSome)).map
          (fun p => scoreOf p.2 * ((weightsTable.lookup p.1).getD 0 : Nat))).sum,
       w + ((d.filter (fun p => (weightsTable.lookup p.1).isSome)).map
          (fun p => ((weightsTable.lookup p.1).getD 0 : Nat))).sum) := by
  induction d generalizing a w with
  | nil => simp
  | cons hd tl ih =>
    rw [List.foldl_cons]
    cases hlk : weightsTable.lookup hd.1 with
    | none =>
      have hstep : sentiment_step (a, w) hd = (a, w) := by
        simp [sentiment_step, hlk]
      rw [hstep, ih, List.filter_cons]
      simp [hlk]
    | some wt =>
      have hstep : sentiment_step (a, w) hd = (a + scoreOf hd.2 * wt, w + wt) := by
        simp [sentiment_step, hlk]
      rw [hstep, ih, List.filter_cons]
      simp [hlk, add_assoc]

/-- The source's accumulating loop computes exactly the spec's sums. -/
theorem weighted_sentiment_eq_spec (d : List (String × String)) :
    calculate_weighted_sentiment d = sentiment_spec d := by
  unfold calculate_weighted_sentiment sentiment_spec
  rw [sentiment_foldl_eq d 0 0]
  simp

theorem impact_foldl_eq (md : List Instrument) (a w : Rat)
    (sg : List (String × Rat × String)) :
    md.foldl impact_step (a, w, sg)
    = (a + (((md.filter (fun d => d.change_percent.isSome)).map
          (fun d => if d.gold_impact = "inverse" then -(d.change_percent.getD 0) * d.weight
                    else (d.change_percent.getD 0) * d.weight)).sum),
       w + (((md.filter (fun d => d.change_percent.isSome)).map (fun d => d.weight)).sum),
       sg ++ (((md.filter (fun d => d.change_percent.isSome)).filter
            (fun d => |d.change_percent.getD 0| > 1/2)).map
          (fun d => (d.name, d.change_percent.getD 0,
            if d.gold_impact = "inverse" then
              (if d.change_percent.getD 0 > 0 then "bearish" else "bullish")
            else
              (if d.change_percent.getD 0 > 0 then "bullish" else "bearish"))))) := by
  induction md generalizing a w sg with
  | nil => simp
  | cons hd tl ih =>
    rw [List.foldl_cons]
    cases hcp : hd.change_percent with
    | none =>
      have hstep : impact_step (a, w, sg) hd = (a, w, sg) := by
        simp [impact_step, hcp]
      rw [hstep, ih, List.filter_cons]
      simp [hcp]
    | some change =>
      have hstep : impact_step (a, w, sg) hd =
          (a + (if hd.gold_impact = "inverse" then -change * hd.weight
                else change * hd.weight),
           w + hd.weight,
           if |change| > 1/2 then
             sg ++ [(hd.name, change,
               if hd.gold_impact = "inverse" then
                 (if change > 0 then "bearish" else "bullish")
               else (if change > 0 then "bullish" else "bearish"))]
           else sg) := by
        by_cases himp : hd.gold_impact = "inverse" <;>
          simp [impact_step, hcp, himp]
      rw [hstep, ih, List.filter_cons]
      have h12 : (1 : Rat)/2 = 2⁻¹ := one_div 2
      by_cases hsig : (2 : Rat)⁻¹ < |change| <;>
        by_cases himp : hd.gold_impact = "inverse" <;>
          simp [hcp, hsig, himp, add_assoc, List.filter_cons, List.append_assoc, h12]

/-- The source's accumulating loop computes exactly the spec's macro
fusion on any nonempty map whose instrument weights are nonnegative (all
configured weights are positive constants; nonnegativity makes the
source's `total_weight > 0` test coincide with the spec's "no weight"
test). -/
theorem gold_impact_eq_spec (md : List Instrument) (hne : md ≠ [])
    (hw : ∀ d ∈ md, 0 ≤ d.weight) :
    calculate_gold_impact_score md = impact_spec md := by
  unfold calculate_gold_impact_score impact_spec
  rw [if_neg hne, if_neg hne, impact_foldl_eq md 0 0 []]
  have hW : 0 ≤ ((md.filter (fun d => d.change_percent.isSome)).map (fun d => d.weight)).sum := by
    apply List.sum_nonneg
    intro x hx
    rcases List.mem_map.1 hx with ⟨d, hd, rfl⟩
    exact hw d (List.mem_filter.1 hd).1
  have hiff : (0 < ((md.filter (fun d => d.change_percent.isSome)).map
      (fun d => d.weight)).sum) ↔
      ¬ (((md.filter (fun d => d.change_percent.isSome)).map (fun d => d.weight)).sum = 0) := by
    constructor
    · intro h
      exact ne_of_gt h
    · intro h
      exact lt_of_le_of_ne hW (Ne.symm h)
  by_cases hz : ((md.filter (fun d => d.change_percent.isSome)).map (fun d => d.weight)).sum = 0
  · simp [hz, hiff]
  · simp [hz, hiff, if_neg hz]

theorem getLast?_map_range {α : Type} (f : Nat → α) (n : Nat) (hn : n ≠ 0) :
    ((List.range n).map f).getLast? = some (f (n - 1)) := by
  rw [List.getLast?_eq_getElem?]
  have h1 : ((List.range n).map f).length = n := by simp
  rw [h1, List.getElem?_map]
  have h2 : (List.range n)[n - 1]? = some (n - 1) := by
    simp [List.getElem?_range, Nat.sub_lt (Nat.pos_of_ne_zero hn) Nat.one_pos]
  rw [h2]
  rfl

/-- The last SMA value is the 2-decimal rounding of the unrounded trailing
mean of the last `period` values. -/
theorem sma_getLast (prices : List Rat) (period : Nat) (h1 : 1 ≤ period)
    (h2 : period ≤ prices.length) :
    (calculate_sma prices period).getLast? = some (round2 (trailingMean prices period)) := by
  unfold calculate_sma
  rw [if_neg (by omega)]
  rw [getLast?_map_range _ _ (by omega)]
  congr 2
  have h3 : prices.length + 1 - period - 1 = prices.length - period := by omega
  rw [h3]
  unfold trailingMean
  congr 1
  have h4 : (prices.drop (prices.length - period)).length = period := by
    rw [List.length_drop]
    omega
  rw [List.take_of_length_le (le_of_eq h4)]

/-- Length of the SMA list when the series is long enough. -/
theorem sma_length (prices : List Rat) (period : Nat) (h2 : period ≤ prices.length) :
    (calculate_sma prices period).length = prices.length + 1 - period := by
  unfold calculate_sma
  rw [if_neg (by omega)]
  simp

theorem typical_prices_length (hs ls cs : List Rat)
    (hls : ls.length = hs.length) (hcs : cs.length = hs.length) :
    (typical_prices hs ls cs).length = hs.length := by
  unfold typical_prices
  rw [List.length_zipWith, List.length_zip]
  omega

theorem typical_prices_drop_const (hs ls cs : List Rat) (p : Nat) (h0 l0 c0 : Rat)
    (hh : hs.drop (hs.length - p) = List.replicate p h0)
    (hl : ls.drop (hs.length - p) = List.replicate p l0)
    (hc : cs.drop (hs.length - p) = List.replicate p c0) :
    (typical_prices hs ls cs).drop (hs.length - p) =
      List.replicate p ((h0 + l0 + c0) / 3) := by
  unfold typical_prices
  rw [List.drop_zipWith, List.zip_eq_zipWith, List.drop_zipWith, hh, hl, hc]
  rw [List.zipWith_replicate, List.zipWith_replicate]
  simp

/-- On a series whose trailing `p`-window is constant with typical price
exact to 2 decimals, the last CCI value is `0` (the zero-deviation branch
fires). -/
theorem cci_getLast_const (hs ls cs : List Rat) (p : Nat) (h0 l0 c0 : Rat)
    (hp : 1 ≤ p) (hlen : p ≤ hs.length)
    (hls : ls.length = hs.length) (hcs : cs.length = hs.length)
    (hh : hs.drop (hs.length - p) = List.replicate p h0)
    (hl : ls.drop (hs.length - p) = List.replicate p l0)
    (hc : cs.drop (hs.length - p) = List.replicate p c0)
    (hexact : round2 ((h0 + l0 + c0) / 3) = (h0 + l0 + c0) / 3) :
    (calculate_cci hs ls cs p).getLast? = some 0 := by
  have htl : (typical_prices hs ls cs).length = hs.length :=
    typical_prices_length hs ls cs hls hcs
  have hdrop : (typical_prices hs ls cs).drop (hs.length - p) =
      List.replicate p ((h0 + l0 + c0) / 3) :=
    typical_prices_drop_const hs ls cs p h0 l0 c0 hh hl hc
  have hmean : trailingMean (typical_prices hs ls cs) p = (h0 + l0 + c0) / 3 := by
    unfold trailingMean
    rw [htl, hdrop, List.sum_replicate, nsmul_eq_mul]
    have hpne : (p : Rat) ≠ 0 := by
      exact_mod_cast Nat.pos_iff_ne_zero.mp (by omega)
    field_simp
    ring
  have hsma : (calculate_sma (typical_prices hs ls cs) p).getLast? =
      some ((h0 + l0 + c0) / 3) := by
    rw [sma_getLast _ _ hp (by omega), hmean, hexact]
  have hsmalen : (calculate_sma (typical_prices hs ls cs) p).length =
      hs.length + 1 - p := by
    rw [sma_length _ _ (by omega), htl]
  unfold calculate_cci
  rw [if_neg (by omega)]
  simp only []
  rw [if_neg (by
    intro hnil
    rw [hnil] at hsmalen
    simp at hsmalen
    omega)]
  rw [getLast?_map_range _ _ (by omega)]
  have hidx : (calculate_sma (typical_prices hs ls cs) p).length - 1 = hs.length - p := by
    omega
  rw [hsmalen]
  have hidx2 : hs.length + 1 - p - 1 = hs.length - p := by omega
  rw [hidx2]
  congr 1
  have hwin : ((typical_prices hs ls cs).drop (hs.length - p)).take p =
      List.replicate p ((h0 + l0 + c0) / 3) := by
    rw [hdrop, List.take_of_length_le (by simp)]
  rw [hwin]
  have hsmaval : (calculate_sma (typical_prices hs ls cs) p).getD (hs.length - p) 0 =
      (h0 + l0 + c0) / 3 := by
    rw [List.getD_eq_getElem?_getD]
    rw [List.getLast?_eq_getElem?, hsmalen, hidx2] at hsma
    rw [hsma]
    rfl
  rw [hsmaval]
  have hdevs : (List.replicate p ((h0 + l0 + c0) / 3)).map
      (fun x => |x - (h0 + l0 + c0) / 3|) = List.replicate p 0 := by
    rw [List.map_replicate]
    simp
  rw [hdevs, List.sum_replicate]
  simp [round2]
  decide

/-! ## Concrete inputs used by witnesses and counterexamples -/

/-- Five closes whose mean `100.004` rounds to `100.00`: the rounded and
unrounded trailing means categorize differently against the current price
`102.002`. -/
def roundingSeries : List Rat :=
  [199009/2000, 199009/2000, 199009/2000, 199009/2000, 51001/500]

/-- A constant series whose typical price `1.001` is not exact to 2
decimals. -/
def constSeries : List Rat := [1001/1000, 1001/1000]

/-- A constant series whose typical price `2` is exact to 2 decimals. -/
def flatSeries : List Rat := [2, 2]

/-- The two-instrument macro scenario of the spec's worked example. -/
def macroExample : List Instrument :=
  [⟨"A", some 1, 1/4, "inverse"⟩, ⟨"B", some 1, 18/100, "positive"⟩]

/-- A state with a few calls already recorded today (day 1). -/
def midState : PredictorState :=
  { initState with api_calls_today := 5, calls_this_month := 7, last_call_date := some 1 }

/-- A state holding a 30-calls-today counter. -/
def fullState : PredictorState := { initState with api_calls_today := 30 }

/-- A successful spot response carrying one London Gold row. -/
def okBody : ApiBody := ⟨some 1, none, some [⟨"伦敦金", 2000⟩]⟩

/-- A state caching `okBody`, fetched at second 0. -/
def cachedState : PredictorState :=
  { initState with last_fetch_time := some 0, cached_api_data := some okBody }

/-- `cachedState` with the extracted price also cached. -/
def cachedPriceState : PredictorState :=
  { cachedState with cached_price_usd := some 1999, cached_london_price := some 1999 }

/-- A state with a fresh fetch timestamp but nothing cached (used to
exercise the "No data available" characterization). -/
def noCacheState : PredictorState := { initState with last_fetch_time := some 0 }

/-! ## Claims -/

/-- C4: for every indicator map, `calculate_weighted_sentiment` returns
the weighted average `Σ(score×weight)/Σ(weight)` over exactly the
indicators present in the fixed weight table (missing indicators excluded
from both sums, no renormalization), mapped to a category by the
`≥1.3 / ≥0.4 / ≥−0.4 / ≥−1.3` thresholds, and Neutral with score `0` when
no weighted indicator is present — all captured by `sentiment_spec`. -/
theorem c4_weighted_sentiment (d : List (String × String)) :
    calculate_weighted_sentiment d = sentiment_spec d :=
  weighted_sentiment_eq_spec d

/-- C5 counterexample: on the empty market-data map — zero total weight,
no usable instruments — `calculate_gold_impact_score` returns `None`
rather than the score-0/HOLD/confidence-0 record the claim requires. -/
theorem c5_counterexample :
    calculate_gold_impact_score [] = none ∧
    ∀ r : ImpactResult, calculate_gold_impact_score [] ≠ some r :=
  ⟨rfl, fun _ h => Option.noConfusion h⟩

/-- C5 amended: for every NON-EMPTY macro market-data map (with the
nonnegative instrument weights the configuration uses),
`calculate_gold_impact_score` computes exactly the spec's fusion
(`impact_spec`): contributions `∓change×weight`, overall score
`Σ/Σweight` (0 when the total weight is 0), BUY/SELL/HOLD by the `±0.3`
thresholds, and confidence `min(|score|×100, 95)`; a zero total weight
yields score 0, HOLD, confidence 0 without raising.  The empty map is the
one exception: it returns `None`. -/
theorem c5_amended (md : List Instrument) (hne : md ≠ [])
    (hw : ∀ d ∈ md, 0 ≤ d.weight) :
    calculate_gold_impact_score md = impact_spec md :=
  gold_impact_eq_spec md hne hw

/-- Witness for C5 at the spec's worked example: hypotheses hold, the
theorem applies, and the resulting score is exactly `−7/43 ≈ −0.1628`
with recommendation HOLD. -/
theorem c5_witness :
    (macroExample ≠ [] ∧ ∀ d ∈ macroExample, 0 ≤ d.weight) ∧
    calculate_gold_impact_score macroExample = impact_spec macroExample ∧
    impact_spec macroExample =
      some ⟨-(7/43), 43/100, [("A", 1, "bearish"), ("B", 1, "bullish")], "HOLD", 700/43⟩ :=
  ⟨⟨by decide, by decide⟩, c5_amended macroExample (by decide) (by decide), by decide⟩

/-- C7 counterexample: on `roundingSeries`, the MA5 entry of the
indicator map is categorized "Buy", yet categorizing the unrounded
trailing mean of the same window yields "Neutral" — so threshold
comparisons do operate on values already rounded to 2 decimals
(`calculate_sma` rounds before `categorize_ma_trend` runs). -/
theorem c7_counterexample :
    ((build_indicator_data roundingSeries roundingSeries roundingSeries).lookup "MA5").map
        IndicatorEntry.category = some "Buy" ∧
    (categorize_ma_trend (51001/500) (trailingMean roundingSeries 5)).1 = "Neutral" ∧
    roundingSeries.getLast? = some (51001/500) :=
  ⟨by decide, by decide, by decide⟩

/-- C7 amended: categorization operates on the already-rounded values:
each SMA value handed to the categorizer is `round2` of the unrounded
trailing mean, and the map entry's category is computed from that rounded
value (the source rounds inside `calculate_sma`/`calculate_cci`, before
any categorization). -/
theorem c7_amended (cs : List Rat) (current_price : Rat) (p : Nat)
    (h1 : 1 ≤ p) (h2 : p ≤ cs.length) :
    (calculate_sma cs p).getLast? = some (round2 (trailingMean cs p)) ∧
    ma_segment cs current_price p =
      [(maName p,
        ⟨(categorize_ma_trend current_price (round2 (trailingMean cs p))).1,
         (categorize_ma_trend current_price (round2 (trailingMean cs p))).2,
         round2 (trailingMean cs p),
         some (current_price - round2 (trailingMean cs p))⟩)] := by
  have h := sma_getLast cs p h1 h2
  exact ⟨h, by unfold ma_segment; rw [h]⟩

/-- Witness for C7 at a small concrete series. -/
theorem c7_witness :
    ((1 : Nat) ≤ 2 ∧ 2 ≤ ([1, 2, 3] : List Rat).length) ∧
    ((calculate_sma [1, 2, 3] 2).getLast? = some (round2 (trailingMean [1, 2, 3] 2)) ∧
     ma_segment [1, 2, 3] 3 2 =
       [(maName 2,
         ⟨(categorize_ma_trend 3 (round2 (trailingMean [1, 2, 3] 2))).1,
          (categorize_ma_trend 3 (round2 (trailingMean [1, 2, 3] 2))).2,
          round2 (trailingMean [1, 2, 3] 2),
          some (3 - round2 (trailingMean [1, 2, 3] 2))⟩)]) :=
  ⟨⟨by decide, by decide⟩, c7_amended [1, 2, 3] 3 2 (by decide) (by decide)⟩

/-- C8 counterexample: the constant window `high = low = close = 1.001`
(period 2) has mean deviation `0.001 ≠ 0` — because the SMA of typical
prices was rounded to `1.00` — so the reported CCI is `66.67`, not `0`,
refuting "exactly 0 for every constant window". -/
theorem c8_counterexample :
    calculate_cci constSeries constSeries constSeries 2 = [6667/100] ∧
    ((6667 : Rat)/100 ≠ 0) :=
  ⟨by decide, by decide⟩

/-- C8 amended: for every series whose trailing `p`-window (any `p ≥ 1`)
has constant high/low/close values whose typical price is exact to two
decimal places (`round2 tp = tp`), the reported CCI value is exactly `0`:
the mean deviation is `0` and the zero-deviation branch guards the
division.  (Without the exactness condition the rounding inside
`calculate_sma` produces a nonzero deviation, as the counterexample
shows.) -/
theorem c8_amended (hs ls cs : List Rat) (p : Nat) (h0 l0 c0 : Rat)
    (hp : 1 ≤ p) (hlen : p ≤ hs.length)
    (hls : ls.length = hs.length) (hcs : cs.length = hs.length)
    (hh : hs.drop (hs.length - p) = List.replicate p h0)
    (hl : ls.drop (hs.length - p) = List.replicate p l0)
    (hc : cs.drop (hs.length - p) = List.replicate p c0)
    (hexact : round2 ((h0 + l0 + c0) / 3) = (h0 + l0 + c0) / 3) :
    (calculate_cci hs ls cs p).getLast? = some 0 :=
  cci_getLast_const hs ls cs p h0 l0 c0 hp hlen hls hcs hh hl hc hexact

/-- Witness for C8 on a flat series with 2-decimal-exact prices. -/
theorem c8_witness :
    ((1 : Nat) ≤ 2 ∧ 2 ≤ flatSeries.length ∧
     flatSeries.drop (flatSeries.length - 2) = List.replicate 2 2 ∧
     round2 ((2 + 2 + 2) / 3) = ((2 : Rat) + 2 + 2) / 3) ∧
    (calculate_cci flatSeries flatSeries flatSeries 2).getLast? = some 0 :=
  ⟨⟨by decide, by decide, by decide, by decide⟩,
   c8_amended flatSeries flatSeries flatSeries 2 2 2 2 (by decide) (by decide)
     (by decide) (by decide) (by decide) (by decide) (by decide) (by decide)⟩

/-- C1: with `monthly_limit = 600` and `days_in_month = 30` (so a daily
budget of 20 and a ceiling of `1.5 × 20 = 30`), a non-forced
`fetch_historical_data` with valid arguments is denied — failure
returned, no upstream call made, state (hence both counters) untouched —
exactly when `calls_today + 1` would exceed 30; a forced call always
reaches the upstream request.  (The quantification over every state
covers every cache age: staleness plays no role.) -/
theorem c1_quota_gate (s : PredictorState) (today : Nat) (u : Upstream)
    (product dt : String) (limit : Int)
    (hp : product ∈ available_products) (ht : dt ∈ ["1", "2", "3"])
    (hl1 : 1 ≤ limit) (hl2 : limit ≤ 1000) :
    ((((fetch_historical_data s today u product dt limit false).1.success = false ∧
       (fetch_historical_data s today u product dt limit false).1.upstream_called = false) ∧
      (fetch_historical_data s today u product dt limit false).2 = s) ↔
      30 < s.api_calls_today + 1) ∧
    (fetch_historical_data s today u product dt limit true).1.upstream_called = true := by
  have hbudget : estimated_daily_budget * (3/2) = 30 := by
    unfold estimated_daily_budget monthly_limit
    norm_num
  have hq : (check_quota_availability s.api_calls_today 1).1 = false ↔
      30 < s.api_calls_today + 1 := by
    unfold check_quota_availability
    rw [hbudget]
    push_cast
    by_cases h : (s.api_calls_today : Rat) + 1 > 30
    · rw [if_pos h]
      simp only [true_iff]
      exact_mod_cast h
    · rw [if_neg h]
      have hn : ¬ (30 < s.api_calls_today + 1) := by
        intro hc
        apply h
        exact_mod_cast hc
      simp [hn]
  constructor
  · by_cases hden : 30 < s.api_calls_today + 1
    · have hqf : (check_quota_availability s.api_calls_today 1).1 = false := hq.mpr hden
      unfold fetch_historical_data
      rw [if_pos (by simp [hqf])]
      simpa using hden
    · have hqt : (check_quota_availability s.api_calls_today 1).1 = true := by
        cases hqa : (check_quota_availability s.api_calls_today 1).1 with
        | false => exact absurd (hq.mp hqa) hden
        | true => rfl
      unfold fetch_historical_data
      rw [if_neg (by simp [hqt])]
      rw [if_neg (by simp [hp]), if_neg (by simp [ht]), if_neg (by omega)]
      simpa using hden
  · unfold fetch_historical_data
    rw [if_neg (by simp)]
    rw [if_neg (by simp [hp]), if_neg (by simp [ht]), if_neg (by omega)]

/-- Witness for C1: with exactly 30 calls already recorded today the 31st
non-forced fetch is denied (failure, no upstream call, state unchanged),
and `force = true` still reaches the upstream request. -/
theorem c1_witness :
    ("XAU" ∈ available_products ∧ "1" ∈ (["1", "2", "3"] : List String) ∧
     (1 : Int) ≤ 30 ∧ (30 : Int) ≤ 1000) ∧
    (let s30 : PredictorState := { initState with api_calls_today := 30 }
     ((((fetch_historical_data s30 1 (.transportError "t") "XAU" "1" 30 false).1.success = false ∧
        (fetch_historical_data s30 1 (.transportError "t") "XAU" "1" 30 false).1.upstream_called
          = false) ∧
       (fetch_historical_data s30 1 (.transportError "t") "XAU" "1" 30 false).2 = s30) ↔
       30 < s30.api_calls_today + 1) ∧
     (fetch_historical_data s30 1 (.transportError "t") "XAU" "1" 30 true).1.upstream_called
       = true) :=
  ⟨⟨by decide, by decide, by decide, by decide⟩,
   c1_quota_gate { initState with api_calls_today := 30 } 1 (.transportError "t") "XAU" "1" 30
     (by decide) (by decide) (by decide) (by decide)⟩

/-- C2 counterexample: a successful spot fetch leaves both counters
untouched (no tracking call exists on that path), and a historical fetch
leaves `calls_this_month` untouched (`update_api_quota` increments only
the daily counter) — refuting "every attempted upstream fetch increments
both `calls_today` and `calls_this_month` exactly once". -/
theorem c2_counterexample :
    (fetch_gold_price_from_api midState true (.response 200 okBody) false).2.api_calls_today = 5 ∧
    (fetch_gold_price_from_api midState true (.response 200 okBody) false).2.calls_this_month = 7 ∧
    (fetch_historical_data midState 1 (.response 200 okBody) "XAU" "1" 30
       false).2.api_calls_today = 6 ∧
    (fetch_historical_data midState 1 (.response 200 okBody) "XAU" "1" 30
       false).2.calls_this_month = 7 ∧
    midState.api_calls_today = 5 ∧ midState.calls_this_month = 7 ∧
    (5 : Nat) ≠ 5 + 1 ∧ (7 : Nat) ≠ 7 + 1 :=
  ⟨by decide, by decide, by decide, by decide, by decide, by decide, by decide, by decide⟩

/-- C2 amended: `fetch_gold_price_from_api` never modifies either call
counter (or the daily date stamp); `fetch_historical_data`, on every
attempt that passes the quota gate and argument validation, increments
`api_calls_today` exactly once — after resetting it to 0 when the
wall-clock date differs from `last_call_date` — and never touches
`calls_this_month`; the `track_api_call` helper that would increment both
counters exists but is invoked by neither fetch path. -/
theorem c2_amended :
    (∀ (s : PredictorState) (it : Bool) (u : Upstream) (force : Bool),
       (fetch_gold_price_from_api s it u force).2.api_calls_today = s.api_calls_today ∧
       (fetch_gold_price_from_api s it u force).2.calls_this_month = s.calls_this_month ∧
       (fetch_gold_price_from_api s it u force).2.last_call_date = s.last_call_date) ∧
    (∀ (s : PredictorState) (today : Nat) (u : Upstream) (product dt : String) (limit : Int)
       (force : Bool),
       product ∈ available_products → dt ∈ ["1", "2", "3"] → 1 ≤ limit → limit ≤ 1000 →
       (force = true ∨ ¬ (30 < s.api_calls_today + 1)) →
       (fetch_historical_data s today u product dt limit force).2.api_calls_today =
           (if s.last_call_date = some today then s.api_calls_today + 1 else 1) ∧
       (fetch_historical_data s today u product dt limit force).2.calls_this_month =
           s.calls_this_month) ∧
    (∀ (s : PredictorState) (today current_day : Nat),
       (track_api_call s today current_day).api_calls_today =
           (if s.last_call_date = some today then s.api_calls_today + 1 else 1) ∧
       (track_api_call s today current_day).calls_this_month = s.calls_this_month + 1) := by
  refine ⟨?_, ?_, ?_⟩
  · intro s it u force
    unfold fetch_gold_price_from_api handle_response clear_error_info
    split
    · exact ⟨rfl, rfl, rfl⟩
    · rcases u with m | ⟨st, b⟩
      · exact ⟨rfl, rfl, rfl⟩
      · dsimp only
        by_cases hst : st = 200
        · rw [if_pos hst]
          cases hbc : b.code with
          | none => exact ⟨rfl, rfl, rfl⟩
          | some c =>
            dsimp only
            by_cases hc1 : c ≠ 1
            · rw [if_pos hc1]
              split <;> exact ⟨rfl, rfl, rfl⟩
            · rw [if_neg hc1]
              exact ⟨rfl, rfl, rfl⟩
        · rw [if_neg hst]
          exact ⟨rfl, rfl, rfl⟩
  · intro s today u product dt limit force hp ht hl1 hl2 hforce
    have hupd : ∀ s' : PredictorState,
        (update_api_quota s' today).api_calls_today =
          (if s'.last_call_date = some today then s'.api_calls_today + 1 else 1) ∧
        (update_api_quota s' today).calls_this_month = s'.calls_this_month := by
      intro s'
      unfold update_api_quota
      by_cases hd : s'.last_call_date = some today
      · rw [if_neg (by simp [hd]), if_pos hd]
        exact ⟨rfl, rfl⟩
      · rw [if_pos (by simp [hd]), if_neg hd]
        exact ⟨rfl, rfl⟩
    have hhr : ∀ (s' : PredictorState) (okMsg : ApiBody → String),
        (handle_response s' u okMsg).2.api_calls_today = s'.api_calls_today ∧
        (handle_response s' u okMsg).2.calls_this_month = s'.calls_this_month := by
      intro s' okMsg
      unfold handle_response clear_error_info
      rcases u with m | ⟨st, b⟩
      · exact ⟨rfl, rfl⟩
      · dsimp only
        by_cases hst : st = 200
        · rw [if_pos hst]
          cases hbc : b.code with
          | none => exact ⟨rfl, rfl⟩
          | some c =>
            dsimp only
            by_cases hc1 : c ≠ 1
            · rw [if_pos hc1]
              split <;> exact ⟨rfl, rfl⟩
            · rw [if_neg hc1]
              exact ⟨rfl, rfl⟩
        · rw [if_neg hst]
          exact ⟨rfl, rfl⟩
    have hgate : ¬ (¬ force ∧ ¬ (check_quota_availability s.api_calls_today 1).1) := by
      rcases hforce with hf | hq
      · simp [hf]
      · intro hcon
        apply hcon.2
        unfold check_quota_availability
        rw [if_neg]
        intro habs
        apply hq
        have : (s.api_calls_today : Rat) + (1 : Nat) > 30 := by
          have hb : estimated_daily_budget * (3/2) = 30 := by
            unfold estimated_daily_budget monthly_limit
            norm_num
          rwa [hb] at habs
        have h30 : (s.api_calls_today : Rat) + 1 > 30 := by push_cast at this ⊢; exact this
        exact_mod_cast h30
    unfold fetch_historical_data
    rw [if_neg hgate, if_neg (by simp [hp]), if_neg (by simp [ht]), if_neg (by omega)]
    exact ⟨by rw [(hhr (update_api_quota s today) _).1, (hupd s).1],
           by rw [(hhr (update_api_quota s today) _).2, (hupd s).2]⟩
  · intro s today current_day
    unfold track_api_call
    by_cases hd : s.last_call_date = some today <;>
      by_cases hcd : 0 < current_day <;>
        simp [hd, hcd]

/-- Witness for C2 (amended): concrete instantiation of all three parts,
with the historical fetch on a same-date state and the tracker for
contrast. -/
theorem c2_witness :
    ("XAU" ∈ available_products ∧ "1" ∈ (["1", "2", "3"] : List String) ∧
     (1 : Int) ≤ 30 ∧ (30 : Int) ≤ 1000 ∧
     ((false = true) ∨ ¬ (30 < midState.api_calls_today + 1))) ∧
    ((fetch_gold_price_from_api midState true (.transportError "t") false).2.api_calls_today =
       midState.api_calls_today) ∧
    ((fetch_historical_data midState 1 (.transportError "t") "XAU" "1" 30
        false).2.calls_this_month = midState.calls_this_month) ∧
    ((track_api_call midState 1 1).calls_this_month = midState.calls_this_month + 1) :=
  ⟨⟨by decide, by decide, by decide, by decide, Or.inr (by decide)⟩,
   (c2_amended.1 midState true (.transportError "t") false).1,
   (c2_amended.2.1 midState 1 (.transportError "t") "XAU" "1" 30 false
      (by decide) (by decide) (by decide) (by decide) (Or.inr (by decide))).2,
   (c2_amended.2.2 midState 1 1).2⟩

/-- Whenever the `should_fetch` disjunction holds, the fetch branch runs
(every outcome of the inner fetch is marked `fetch_attempted`). -/
theorem gcofd_attempted (s : PredictorState) (now : Nat) (it : Bool) (u : Upstream)
    (fx : Option Rat) (force : Bool)
    (h : (force || s.last_fetch_time.isNone ||
      (match s.last_fetch_time with
       | some t => decide (((now : Int) - t) > 1800)
       | none => true)) = true) :
    (get_cached_or_fresh_data s now it u fx force).1.fetch_attempted = true := by
  unfold get_cached_or_fresh_data
  rw [if_pos h]
  dsimp only
  cases hfr : (fetch_gold_price_from_api (match fx with
      | some r => { s with usd_gbp_rate := r }
      | none => s) it u false).1.2.1 with
  | none => rfl
  | some d =>
    dsimp only
    split <;> rfl

/-- C3: `get_cached_or_fresh_data` attempts a fresh fetch exactly when
`force_refresh` is set, no prior fetch exists, or more than 1800 seconds
have elapsed since the last successful fetch; otherwise it returns the
previously cached payload with success, labelled with its age in whole
minutes, and leaves the state untouched. -/
theorem c3_cache_decision (s : PredictorState) (now t : Nat) (it : Bool) (u : Upstream)
    (fx : Option Rat) (force : Bool) (d : ApiBody)
    (hlt : s.last_fetch_time = some t) (hcd : s.cached_api_data = some d)
    (hmono : t ≤ now) :
    ((get_cached_or_fresh_data s now it u fx force).1.fetch_attempted = true ↔
       (force = true ∨ 1800 < now - t)) ∧
    (force = false → now - t ≤ 1800 →
       get_cached_or_fresh_data s now it u fx force =
         (⟨true, some d, "Cached (" ++ toString ((now - t) / 60) ++ "min old)", false⟩, s)) ∧
    (∀ s2 : PredictorState, s2.last_fetch_time = none →
       (get_cached_or_fresh_data s2 now it u fx force).1.fetch_attempted = true) := by
  have hint : (((now : Int) - t) > 1800) ↔ (1800 < now - t) := by omega
  have hcached : force = false → now - t ≤ 1800 →
      get_cached_or_fresh_data s now it u fx force =
        (⟨true, some d, "Cached (" ++ toString ((now - t) / 60) ++ "min old)", false⟩, s) := by
    intro hf hage
    have hst : ¬ (((now : Int) - t) > 1800) := by omega
    unfold get_cached_or_fresh_data
    rw [if_neg (by simp [hlt, hf, hst])]
    rw [hlt, hcd]
    dsimp only
    have hagem : ageMinutes now t = (now - t) / 60 := by
      unfold ageMinutes
      have htn : ((now : Int) - t).toNat = now - t := by omega
      rw [htn]
    rw [hagem]
  refine ⟨?_, hcached, ?_⟩
  · by_cases hf : force = true
    · subst hf
      have ha := gcofd_attempted s now it u fx true (by simp)
      simp [ha]
    · have hf2 : force = false := by
        cases force
        · rfl
        · exact absurd rfl hf
      subst hf2
      by_cases hst : ((now : Int) - t) > 1800
      · have ha := gcofd_attempted s now it u fx false (by simp [hlt, hst])
        simp [ha, hint.mp hst]
      · have hres := hcached rfl (by omega)
        rw [hres]
        simp
        omega
  · intro s2 h2
    exact gcofd_attempted s2 now it u fx force (by simp [h2])

/-- Witness for C3: a 29-minute-old cache is served unchanged with label
"Cached (29min old)", and at 31 minutes (1860 s) a fresh fetch is
attempted. -/
theorem c3_witness :
    (cachedState.last_fetch_time = some 0 ∧ cachedState.cached_api_data = some okBody ∧
     (0 : Nat) ≤ 1740 ∧ (false = false) ∧ (1740 : Nat) - 0 ≤ 1800) ∧
    (get_cached_or_fresh_data cachedState 1740 true (.transportError "t") none false =
       (⟨true, some okBody, "Cached (" ++ toString ((1740 - 0) / 60) ++ "min old)", false⟩,
        cachedState)) ∧
    ((get_cached_or_fresh_data cachedState 1860 true (.transportError "t") none
        false).1.fetch_attempted = true ↔ (false = true ∨ 1800 < 1860 - 0)) :=
  ⟨⟨rfl, rfl, by decide, rfl, by decide⟩,
   (c3_cache_decision cachedState 1740 0 true (.transportError "t") none false okBody
      rfl rfl (by decide)).2.1 rfl (by decide),
   (c3_cache_decision cachedState 1860 0 true (.transportError "t") none false okBody
      rfl rfl (by decide)).1⟩

/-- `handle_response` never touches the cache fields (only the error
slots). -/
theorem handle_response_cache_fields (s : PredictorState) (u : Upstream)
    (okMsg : ApiBody → String) :
    (handle_response s u okMsg).2.cached_price_usd = s.cached_price_usd ∧
    (handle_response s u okMsg).2.cached_london_price = s.cached_london_price ∧
    (handle_response s u okMsg).2.cached_api_data = s.cached_api_data ∧
    (handle_response s u okMsg).2.last_fetch_time = s.last_fetch_time := by
  unfold handle_response clear_error_info
  rcases u with m | ⟨st, b⟩
  · exact ⟨rfl, rfl, rfl, rfl⟩
  · dsimp only
    by_cases hst : st = 200
    · rw [if_pos hst]
      cases hbc : b.code with
      | none => exact ⟨rfl, rfl, rfl, rfl⟩
      | some c =>
        dsimp only
        by_cases hc1 : c ≠ 1
        · rw [if_pos hc1]
          split <;> exact ⟨rfl, rfl, rfl, rfl⟩
        · rw [if_neg hc1]
          exact ⟨rfl, rfl, rfl, rfl⟩
    · rw [if_neg hst]
      exact ⟨rfl, rfl, rfl, rfl⟩

/-- `fetch_gold_price_from_api` never touches the cache fields. -/
theorem fetch_gold_cache_fields (s : PredictorState) (it : Bool) (u : Upstream) (force : Bool) :
    (fetch_gold_price_from_api s it u force).2.cached_price_usd = s.cached_price_usd ∧
    (fetch_gold_price_from_api s it u force).2.cached_london_price = s.cached_london_price ∧
    (fetch_gold_price_from_api s it u force).2.cached_api_data = s.cached_api_data ∧
    (fetch_gold_price_from_api s it u force).2.last_fetch_time = s.last_fetch_time := by
  unfold fetch_gold_price_from_api
  split
  · exact ⟨rfl, rfl, rfl, rfl⟩
  · exact handle_response_cache_fields s u _

/-- `get_cached_or_fresh_data` never writes the extracted-price cache
(only `get_current_gold_price` does). -/
theorem gcofd_price_fields (s : PredictorState) (now : Nat) (it : Bool) (u : Upstream)
    (fx : Option Rat) (force : Bool) :
    (get_cached_or_fresh_data s now it u fx force).2.cached_price_usd = s.cached_price_usd ∧
    (get_cached_or_fresh_data s now it u fx force).2.cached_london_price =
      s.cached_london_price := by
  unfold get_cached_or_fresh_data
  cases fx with
  | none =>
    dsimp only
    split
    · cases hfr : (fetch_gold_price_from_api s it u false).1.2.1 with
      | none =>
        dsimp only
        exact ⟨(fetch_gold_cache_fields s it u false).1,
               (fetch_gold_cache_fields s it u false).2.1⟩
      | some d =>
        dsimp only
        split
        · exact ⟨(fetch_gold_cache_fields s it u false).1,
                 (fetch_gold_cache_fields s it u false).2.1⟩
        · exact ⟨(fetch_gold_cache_fields s it u false).1,
                 (fetch_gold_cache_fields s it u false).2.1⟩
    · split <;> exact ⟨rfl, rfl⟩
  | some fxr =>
    dsimp only
    split
    · cases hfr : (fetch_gold_price_from_api { s with usd_gbp_rate := fxr } it u
          false).1.2.1 with
      | none =>
        dsimp only
        exact ⟨(fetch_gold_cache_fields { s with usd_gbp_rate := fxr } it u false).1,
               (fetch_gold_cache_fields { s with usd_gbp_rate := fxr } it u false).2.1⟩
      | some d =>
        dsimp only
        split
        · exact ⟨(fetch_gold_cache_fields { s with usd_gbp_rate := fxr } it u false).1,
                 (fetch_gold_cache_fields { s with usd_gbp_rate := fxr } it u false).2.1⟩
        · exact ⟨(fetch_gold_cache_fields { s with usd_gbp_rate := fxr } it u false).1,
                 (fetch_gold_cache_fields { s with usd_gbp_rate := fxr } it u false).2.1⟩
    · split <;> exact ⟨rfl, rfl⟩

/-- C10: in every state where no price was ever cached and the current
fetch-or-serve round fails, `get_current_gold_price` does not surface a
failure: it returns the hard-coded `2650.0` labelled "Fallback estimate"
with no quote detail. -/
theorem c10_fallback_estimate (s : PredictorState) (now : Nat) (it : Bool) (u : Upstream)
    (fx : Option Rat) (force : Bool)
    (hnp : s.cached_price_usd = none)
    (hfail : (get_cached_or_fresh_data s now it u fx force).1.success = false) :
    get_current_gold_price s now it u fx force =
      some ((2650, "Fallback estimate", none),
            (get_cached_or_fresh_data s now it u fx force).2) := by
  unfold get_current_gold_price
  dsimp only
  rw [hfail]
  simp only [Bool.false_eq_true, if_false]
  rw [(gcofd_price_fields s now it u fx force).1, hnp]

/-- Witness for C10 from the initial state with a failing upstream
(outside trading hours, so the inner fetch declines immediately). -/
theorem c10_witness :
    (initState.cached_price_usd = none ∧
     (get_cached_or_fresh_data initState 0 false (.transportError "t") none
        false).1.success = false) ∧
    get_current_gold_price initState 0 false (.transportError "t") none false =
      some ((2650, "Fallback estimate", none),
            (get_cached_or_fresh_data initState 0 false (.transportError "t") none false).2) :=
  ⟨⟨rfl, by decide⟩,
   c10_fallback_estimate initState 0 false (.transportError "t") none false rfl (by decide)⟩

/-- A label of the form "Cached (Nmin old)" can never be the
"No data available" message (their first characters differ). -/
theorem cached_label_ne (x : String) :
    ¬ ("Cached (" ++ x ++ "min old)") = "No data available" := by
  intro h
  have h2 : ("Cached (" ++ x ++ "min old)").data = "No data available".data := by rw [h]
  rw [String.data_append, String.data_append] at h2
  have hc : "Cached (".data = ['C','a','c','h','e','d',' ','('] := rfl
  have hn : "No data available".data =
      ['N','o',' ','d','a','t','a',' ','a','v','a','i','l','a','b','l','e'] := rfl
  rw [hc, hn] at h2
  simp at h2

/-- Complete characterization of the "No data available" result:
`get_cached_or_fresh_data` returns it exactly when the call is not
forced, a prior fetch exists and is at most 1800 seconds old (so no
fetch is due), and no payload is cached. -/
theorem gcofd_no_data_iff (s : PredictorState) (now : Nat) (it : Bool) (u : Upstream)
    (fx : Option Rat) (force : Bool) :
    (get_cached_or_fresh_data s now it u fx force).1 =
      ⟨false, none, "No data available", false⟩ ↔
    (force = false ∧ s.cached_api_data = none ∧
      ∃ t, s.last_fetch_time = some t ∧ now - t ≤ 1800) := by
  constructor
  · intro hres
    by_cases hsf : (force || s.last_fetch_time.isNone ||
        (match s.last_fetch_time with
         | some t => decide (((now : Int) - t) > 1800)
         | none => true)) = true
    · have ha := gcofd_attempted s now it u fx force hsf
      rw [hres] at ha
      exact absurd ha (by decide)
    · have hforce : force = false := by
        cases force
        · rfl
        · exact absurd (by simp) hsf
      cases hlt : s.last_fetch_time with
      | none => exact absurd (by simp [hlt]) hsf
      | some t =>
        have hfresh : ¬ (((now : Int) - t) > 1800) := by
          intro hgt
          exact hsf (by simp [hlt, hforce, hgt])
        unfold get_cached_or_fresh_data at hres
        rw [hlt] at hres
        rw [if_neg (by simp [hforce, hfresh])] at hres
        cases hcd : s.cached_api_data with
        | some d =>
          rw [hcd] at hres
          simp at hres
        | none =>
          exact ⟨hforce, rfl, t, rfl, by omega⟩
  · rintro ⟨hforce, hcd, t, hlt, hfresh⟩
    unfold get_cached_or_fresh_data
    rw [hlt, hcd]
    rw [if_neg (by simp [hforce]; omega)]

/-- Every successful `get_cached_or_fresh_data` result carries either the
live label or a cached-age label. -/
theorem gcofd_success_source (s : PredictorState) (now : Nat) (it : Bool) (u : Upstream)
    (fx : Option Rat) (force : Bool)
    (h : (get_cached_or_fresh_data s now it u fx force).1.success = true) :
    (get_cached_or_fresh_data s now it u fx force).1.source = "LIVE London Gold Market" ∨
    ∃ n : Nat, (get_cached_or_fresh_data s now it u fx force).1.source =
      "Cached (" ++ toString n ++ "min old)" := by
  cases fx with
  | none =>
    unfold get_cached_or_fresh_data at h ⊢
    by_cases hsf : (force || s.last_fetch_time.isNone ||
        (match s.last_fetch_time with
         | some t => decide (((now : Int) - t) > 1800)
         | none => true)) = true
    · rw [if_pos hsf] at h ⊢
      dsimp only at h ⊢
      cases hfr : (fetch_gold_price_from_api s it u false).1.2.1 with
      | none =>
        rw [hfr] at h
        dsimp only at h
        exact absurd h (by decide)
      | some d =>
        rw [hfr] at h
        dsimp only at h ⊢
        by_cases hok : (fetch_gold_price_from_api s it u false).1.1 = true
        · rw [if_pos hok]
          exact Or.inl rfl
        · rw [if_neg hok] at h
          dsimp only at h
          exact absurd h (by decide)
    · rw [if_neg hsf] at h ⊢
      cases hcd : s.cached_api_data with
      | none =>
        rw [hcd] at h
        dsimp only at h
        exact absurd h (by decide)
      | some d =>
        rw [hcd] at h
        cases hlt : s.last_fetch_time with
        | none =>
          rw [hlt] at h
          dsimp only at h
          exact absurd h (by decide)
        | some t =>
          exact Or.inr ⟨ageMinutes now t, rfl⟩
  | some fxr =>
    unfold get_cached_or_fresh_data at h ⊢
    by_cases hsf : (force || s.last_fetch_time.isNone ||
        (match s.last_fetch_time with
         | some t => decide (((now : Int) - t) > 1800)
         | none => true)) = true
    · rw [if_pos hsf] at h ⊢
      dsimp only at h ⊢
      cases hfr : (fetch_gold_price_from_api { s with usd_gbp_rate := fxr } it u false).1.2.1 with
      | none =>
        rw [hfr] at h
        dsimp only at h
        exact absurd h (by decide)
      | some d =>
        rw [hfr] at h
        dsimp only at h ⊢
        by_cases hok : (fetch_gold_price_from_api { s with usd_gbp_rate := fxr } it u false).1.1 = true
        · rw [if_pos hok]
          exact Or.inl rfl
        · rw [if_neg hok] at h
          dsimp only at h
          exact absurd h (by decide)
    · rw [if_neg hsf] at h ⊢
      cases hcd : s.cached_api_data with
      | none =>
        rw [hcd] at h
        dsimp only at h
        exact absurd h (by decide)
      | some d =>
        rw [hcd] at h
        cases hlt : s.last_fetch_time with
        | none =>
          rw [hlt] at h
          dsimp only at h
          exact absurd h (by decide)
        | some t =>
          exact Or.inr ⟨ageMinutes now t, rfl⟩

/-- Every price returned by `get_current_gold_price` is labelled with the
live label, a cached-age label, or the fallback label. -/
theorem gcgp_label_shape (s : PredictorState) (now : Nat) (it : Bool) (u : Upstream)
    (fx : Option Rat) (force : Bool) (p : Rat) (lbl : String) (dtl : Option QuoteDetail)
    (s2 : PredictorState)
    (h : get_current_gold_price s now it u fx force = some ((p, lbl, dtl), s2)) :
    lbl = "LIVE London Gold Market" ∨
    (∃ n : Nat, lbl = "Cached (" ++ toString n ++ "min old)") ∨
    lbl = "Fallback estimate" := by
  unfold get_current_gold_price at h
  dsimp only at h
  by_cases hsucc : (get_cached_or_fresh_data s now it u fx force).1.success = true
  · rw [if_pos hsucc] at h
    cases hdata : (get_cached_or_fresh_data s now it u fx force).1.data with
    | some body =>
      rw [hdata] at h
      dsimp only at h
      cases hlist : body.list with
      | some items =>
        rw [hlist] at h
        dsimp only at h
        cases hfind : items.find? (fun it => it.type = "伦敦金") with
        | some item =>
          rw [hfind] at h
          dsimp only at h
          simp only [Option.some.injEq, Prod.mk.injEq] at h
          rcases gcofd_success_source s now it u fx force hsucc with hsrc | ⟨n, hsrc⟩
          · exact Or.inl (by rw [← h.1.2.1, hsrc])
          · exact Or.inr (Or.inl ⟨n, by rw [← h.1.2.1, hsrc]⟩)
        | none =>
          rw [hfind] at h
          dsimp only at h
          
          cases hq : (get_cached_or_fresh_data s now it u fx force).2.cached_price_usd with
          | none =>
            rw [hq] at h
            dsimp only at h
            simp only [Option.some.injEq, Prod.mk.injEq] at h
            exact Or.inr (Or.inr h.1.2.1.symm)
          | some q =>
            rw [hq] at h
            dsimp only at h
            by_cases hq0 : q = 0
            · rw [if_pos hq0] at h
              simp only [Option.some.injEq, Prod.mk.injEq] at h
              exact Or.inr (Or.inr h.1.2.1.symm)
            · rw [if_neg hq0] at h
              cases hlt2 : (get_cached_or_fresh_data s now it u fx force).2.last_fetch_time with
              | none =>
                rw [hlt2] at h
                dsimp only at h
                exact absurd h (by simp)
              | some t =>
                rw [hlt2] at h
                dsimp only at h
                simp only [Option.some.injEq, Prod.mk.injEq] at h
                exact Or.inr (Or.inl ⟨ageMinutes now t, h.1.2.1.symm⟩)
      | none =>
        rw [hlist] at h
        dsimp only at h
        
        cases hq : (get_cached_or_fresh_data s now it u fx force).2.cached_price_usd with
        | none =>
          rw [hq] at h
          dsimp only at h
          simp only [Option.some.injEq, Prod.mk.injEq] at h
          exact Or.inr (Or.inr h.1.2.1.symm)
        | some q =>
          rw [hq] at h
          dsimp only at h
          by_cases hq0 : q = 0
          · rw [if_pos hq0] at h
            simp only [Option.some.injEq, Prod.mk.injEq] at h
            exact Or.inr (Or.inr h.1.2.1.symm)
          · rw [if_neg hq0] at h
            cases hlt2 : (get_cached_or_fresh_data s now it u fx force).2.last_fetch_time with
            | none =>
              rw [hlt2] at h
              dsimp only at h
              exact absurd h (by simp)
            | some t =>
              rw [hlt2] at h
              dsimp only at h
              simp only [Option.some.injEq, Prod.mk.injEq] at h
              exact Or.inr (Or.inl ⟨ageMinutes now t, h.1.2.1.symm⟩)
    | none =>
      rw [hdata] at h
      dsimp only at h
      
      cases hq : (get_cached_or_fresh_data s now it u fx force).2.cached_price_usd with
      | none =>
        rw [hq] at h
        dsimp only at h
        simp only [Option.some.injEq, Prod.mk.injEq] at h
        exact Or.inr (Or.inr h.1.2.1.symm)
      | some q =>
        rw [hq] at h
        dsimp only at h
        by_cases hq0 : q = 0
        · rw [if_pos hq0] at h
          simp only [Option.some.injEq, Prod.mk.injEq] at h
          exact Or.inr (Or.inr h.1.2.1.symm)
        · rw [if_neg hq0] at h
          cases hlt2 : (get_cached_or_fresh_data s now it u fx force).2.last_fetch_time with
          | none =>
            rw [hlt2] at h
            dsimp only at h
            exact absurd h (by simp)
          | some t =>
            rw [hlt2] at h
            dsimp only at h
            simp only [Option.some.injEq, Prod.mk.injEq] at h
            exact Or.inr (Or.inl ⟨ageMinutes now t, h.1.2.1.symm⟩)
  · rw [if_neg hsucc] at h
    dsimp only at h
    
    cases hq : (get_cached_or_fresh_data s now it u fx force).2.cached_price_usd with
    | none =>
      rw [hq] at h
      dsimp only at h
      simp only [Option.some.injEq, Prod.mk.injEq] at h
      exact Or.inr (Or.inr h.1.2.1.symm)
    | some q =>
      rw [hq] at h
      dsimp only at h
      by_cases hq0 : q = 0
      · rw [if_pos hq0] at h
        simp only [Option.some.injEq, Prod.mk.injEq] at h
        exact Or.inr (Or.inr h.1.2.1.symm)
      · rw [if_neg hq0] at h
        cases hlt2 : (get_cached_or_fresh_data s now it u fx force).2.last_fetch_time with
        | none =>
          rw [hlt2] at h
          dsimp only at h
          exact absurd h (by simp)
        | some t =>
          rw [hlt2] at h
          dsimp only at h
          simp only [Option.some.injEq, Prod.mk.injEq] at h
          exact Or.inr (Or.inl ⟨ageMinutes now t, h.1.2.1.symm⟩)

/-- `get_current_gold_price` never surfaces "No data available". -/
theorem gcgp_never_no_data (s : PredictorState) (now : Nat) (it : Bool) (u : Upstream)
    (fx : Option Rat) (force : Bool) (p : Rat) (lbl : String) (dtl : Option QuoteDetail)
    (s2 : PredictorState)
    (h : get_current_gold_price s now it u fx force = some ((p, lbl, dtl), s2)) :
    ¬ lbl = "No data available" := by
  rcases gcgp_label_shape s now it u fx force p lbl dtl s2 h with h1 | ⟨n, h1⟩ | h1
  · rw [h1]
    decide
  · rw [h1]
    exact cached_label_ne (toString n)
  · rw [h1]
    decide

/-- C6 counterexample: with a previously fetched payload cached (31
minutes old) and a transport failure on refresh, `get_cached_or_fresh_data`
returns failure with no payload — it does not fall back to the cached
payload with success as the claim requires. -/
theorem c6_counterexample :
    cachedPriceState.cached_api_data = some okBody ∧
    (get_cached_or_fresh_data cachedPriceState 1860 true (.transportError "timeout") none
       false).1.success = false ∧
    (get_cached_or_fresh_data cachedPriceState 1860 true (.transportError "timeout") none
       false).1.data = none :=
  ⟨rfl, by decide, by decide⟩

/-- C6 amended: on a transport failure during a due refresh,
`get_cached_or_fresh_data` surfaces the failure message and leaves every
cache field untouched — the cached payload is NOT served; the fallback to
cached data lives one level up: `get_current_gold_price` then returns the
last extracted price (when one is cached and nonzero) relabelled
"Cached (Nmin old)".  "No data available" is returned by
`get_cached_or_fresh_data` exactly when no fetch is due (not forced, with
a prior fetch at most 1800 s old) and no payload is cached; and
`get_current_gold_price` never surfaces that message. -/
theorem c6_amended (s : PredictorState) (now t : Nat) (p : Rat) (fx : Option Rat)
    (msg : String)
    (hlt : s.last_fetch_time = some t) (hmono : t ≤ now) (hstale : 1800 < now - t)
    (hp : s.cached_price_usd = some p) (hp0 : ¬ p = 0) :
    ((get_cached_or_fresh_data s now true (.transportError msg) fx false).1 =
       ⟨false, none, "Request failed: " ++ msg, true⟩ ∧
     (get_cached_or_fresh_data s now true (.transportError msg) fx false).2.cached_api_data =
       s.cached_api_data ∧
     (get_cached_or_fresh_data s now true (.transportError msg) fx false).2.last_fetch_time =
       s.last_fetch_time ∧
     (get_cached_or_fresh_data s now true (.transportError msg) fx false).2.cached_price_usd =
       s.cached_price_usd) ∧
    (get_current_gold_price s now true (.transportError msg) fx false =
      some ((p, "Cached (" ++ toString ((now - t) / 60) ++ "min old)",
             s.cached_london_price.map QuoteDetail.price),
            (get_cached_or_fresh_data s now true (.transportError msg) fx false).2)) ∧
    (∀ (s2 : PredictorState) (now2 : Nat) (it2 : Bool) (u2 : Upstream) (fx2 : Option Rat)
       (force2 : Bool),
       (get_cached_or_fresh_data s2 now2 it2 u2 fx2 force2).1 =
           ⟨false, none, "No data available", false⟩ ↔
         (force2 = false ∧ s2.cached_api_data = none ∧
          ∃ t2, s2.last_fetch_time = some t2 ∧ now2 - t2 ≤ 1800)) ∧
    (∀ (s2 : PredictorState) (now2 : Nat) (it2 : Bool) (u2 : Upstream) (fx2 : Option Rat)
       (force2 : Bool) (p2 : Rat) (lbl2 : String) (dtl2 : Option QuoteDetail)
       (s3 : PredictorState),
       get_current_gold_price s2 now2 it2 u2 fx2 force2 = some ((p2, lbl2, dtl2), s3) →
       ¬ lbl2 = "No data available") := by
  have hagem : ageMinutes now t = (now - t) / 60 := by
    unfold ageMinutes
    have htn : ((now : Int) - t).toNat = now - t := by omega
    rw [htn]
  cases fx with
  | none =>
    have hr : get_cached_or_fresh_data s now true (.transportError msg) none false =
        (⟨false, none, "Request failed: " ++ msg, true⟩, s) := by
      unfold get_cached_or_fresh_data
      rw [if_pos (by simp [hlt]; omega)]
      rfl
    refine ⟨⟨by rw [hr], by rw [hr], by rw [hr], by rw [hr]⟩, ?_,
      fun s2 now2 it2 u2 fx2 force2 => gcofd_no_data_iff s2 now2 it2 u2 fx2 force2,
      fun s2 now2 it2 u2 fx2 force2 p2 lbl2 dtl2 s3 hh =>
        gcgp_never_no_data s2 now2 it2 u2 fx2 force2 p2 lbl2 dtl2 s3 hh⟩
    unfold get_current_gold_price
    dsimp only
    rw [hr]
    simp only [Bool.false_eq_true, if_false]
    rw [hp]
    dsimp only
    rw [if_neg hp0, hlt]
    dsimp only
    rw [hagem]
  | some fxr =>
    have hr : get_cached_or_fresh_data s now true (.transportError msg) (some fxr) false =
        (⟨false, none, "Request failed: " ++ msg, true⟩, { s with usd_gbp_rate := fxr }) := by
      unfold get_cached_or_fresh_data
      rw [if_pos (by simp [hlt]; omega)]
      rfl
    refine ⟨⟨by rw [hr], by rw [hr], by rw [hr], by rw [hr]⟩, ?_,
      fun s2 now2 it2 u2 fx2 force2 => gcofd_no_data_iff s2 now2 it2 u2 fx2 force2,
      fun s2 now2 it2 u2 fx2 force2 p2 lbl2 dtl2 s3 hh =>
        gcgp_never_no_data s2 now2 it2 u2 fx2 force2 p2 lbl2 dtl2 s3 hh⟩
    unfold get_current_gold_price
    dsimp only
    rw [hr]
    simp only [Bool.false_eq_true, if_false]
    rw [hp]
    dsimp only
    rw [if_neg hp0, hlt]
    dsimp only
    rw [hagem]

/-- Witness for C6 (amended) at a cached-price state with a 31-minute-old
cache, plus concrete instantiations of the "No data available"
characterization and the never-surfaced label. -/
theorem c6_witness :
    (cachedPriceState.last_fetch_time = some 0 ∧ (0 : Nat) ≤ 1860 ∧
     1800 < (1860 : Nat) - 0 ∧ cachedPriceState.cached_price_usd = some 1999 ∧
     ¬ (1999 : Rat) = 0) ∧
    ((get_cached_or_fresh_data cachedPriceState 1860 true (.transportError "timeout") none
        false).1 = ⟨false, none, "Request failed: " ++ "timeout", true⟩) ∧
    (get_current_gold_price cachedPriceState 1860 true (.transportError "timeout") none false =
      some ((1999, "Cached (" ++ toString (((1860 : Nat) - 0) / 60) ++ "min old)",
             cachedPriceState.cached_london_price.map QuoteDetail.price),
            (get_cached_or_fresh_data cachedPriceState 1860 true (.transportError "timeout")
               none false).2)) ∧
    ((get_cached_or_fresh_data noCacheState 100 true (.transportError "x") none false).1 =
         ⟨false, none, "No data available", false⟩ ↔
       (false = false ∧ noCacheState.cached_api_data = none ∧
        ∃ t2, noCacheState.last_fetch_time = some t2 ∧ 100 - t2 ≤ 1800)) ∧
    ¬ "Fallback estimate" = "No data available" :=
  ⟨⟨rfl, by decide, by decide, rfl, by decide⟩,
   ((c6_amended cachedPriceState 1860 0 1999 none "timeout" rfl (by decide) (by decide) rfl
       (by decide)).1).1,
   ((c6_amended cachedPriceState 1860 0 1999 none "timeout" rfl (by decide) (by decide) rfl
       (by decide)).2).1,
   (c6_amended cachedPriceState 1860 0 1999 none "timeout" rfl (by decide) (by decide) rfl
       (by decide)).2.2.1 noCacheState 100 true (.transportError "x") none false,
   (c6_amended cachedPriceState 1860 0 1999 none "timeout" rfl (by decide) (by decide) rfl
       (by decide)).2.2.2 initState 0 false (.transportError "t") none false 2650
     "Fallback estimate" none
     (get_cached_or_fresh_data initState 0 false (.transportError "t") none false).2
     (by decide)⟩

theorem lookup_append_none {α β : Type} [BEq α] {k : α} {l1 l2 : List (α × β)}
    (h1 : l1.lookup k = none) (h2 : l2.lookup k = none) :
    (l1 ++ l2).lookup k = none := by
  induction l1 with
  | nil => simpa using h2
  | cons hd tl ih =>
    obtain ⟨a, b⟩ := hd
    rw [List.cons_append]
    cases hbeq : k == a with
    | true => simp [List.lookup, hbeq] at h1
    | false =>
      simp only [List.lookup, hbeq] at h1 ⊢
      exact ih h1

theorem lookup_cci_segment_ne (hs ls cs : List Rat) (k : String) (h : ¬ k = "CCI-20") :
    (cci_segment hs ls cs).lookup k = none := by
  unfold cci_segment
  cases (calculate_cci hs ls cs 20).getLast? with
  | none => rfl
  | some c =>
    simp only [List.lookup]
    rw [beq_eq_false_iff_ne.mpr h]

theorem lookup_cci_segment_short (hs ls cs : List Rat) (k : String) (h : hs.length < 20) :
    (cci_segment hs ls cs).lookup k = none := by
  unfold cci_segment
  rw [show calculate_cci hs ls cs 20 = [] from by unfold calculate_cci; rw [if_pos h]]
  rfl

theorem lookup_ma_segment_ne (cs : List Rat) (cp : Rat) (p : Nat) (k : String)
    (h : ¬ k = maName p) : (ma_segment cs cp p).lookup k = none := by
  unfold ma_segment
  cases (calculate_sma cs p).getLast? with
  | none => rfl
  | some m =>
    simp only [List.lookup]
    rw [beq_eq_false_iff_ne.mpr h]

theorem lookup_ma_segment_short (cs : List Rat) (cp : Rat) (p : Nat) (k : String)
    (h : cs.length < p) : (ma_segment cs cp p).lookup k = none := by
  unfold ma_segment
  rw [show calculate_sma cs p = [] from by unfold calculate_sma; rw [if_pos h]]
  rfl

theorem lookup_crossover_ne (cs : List Rat) (f sl : Nat) (nm k : String)
    (h : ¬ k = nm) : (crossover_segment cs f sl nm).lookup k = none := by
  unfold crossover_segment
  cases (calculate_sma cs f).getLast? with
  | none =>
    cases (calculate_sma cs sl).getLast? with
    | none => rfl
    | some ms => rfl
  | some mf =>
    cases (calculate_sma cs sl).getLast? with
    | none => rfl
    | some ms =>
      simp only [List.lookup]
      rw [beq_eq_false_iff_ne.mpr h]

theorem lookup_crossover_short (cs : List Rat) (f sl : Nat) (nm k : String)
    (h : cs.length < sl) : (crossover_segment cs f sl nm).lookup k = none := by
  unfold crossover_segment
  rw [show calculate_sma cs sl = [] from by unfold calculate_sma; rw [if_pos h]]
  cases (calculate_sma cs f).getLast? with
  | none => rfl
  | some mf => rfl

/-- C9: every indicator whose required window exceeds the series length is
absent from the indicator map — no placeholder entry is emitted (the
embedding is total, so no exception arises) — and the weighted fusion over
that map equals the spec's sums over exactly the present weighted
indicators (absent ones are in neither the score sum nor the weight
sum). -/
theorem c9_insufficient_history (hs ls cs : List Rat) :
    ((cs.length < 5 → (build_indicator_data hs ls cs).lookup "MA5" = none) ∧
     (cs.length < 20 → (build_indicator_data hs ls cs).lookup "MA20" = none) ∧
     (cs.length < 40 → (build_indicator_data hs ls cs).lookup "MA40" = none) ∧
     (cs.length < 60 → (build_indicator_data hs ls cs).lookup "MA60" = none)) ∧
    ((cs.length < 10 → (build_indicator_data hs ls cs).lookup "MA5-MA10" = none) ∧
     (cs.length < 20 → (build_indicator_data hs ls cs).lookup "MA10-MA20" = none) ∧
     (cs.length < 40 → (build_indicator_data hs ls cs).lookup "MA20-MA40" = none) ∧
     (cs.length < 60 → (build_indicator_data hs ls cs).lookup "MA20-MA60" = none) ∧
     (cs.length < 60 → (build_indicator_data hs ls cs).lookup "MA40-MA60" = none)) ∧
    (hs.length < 20 → (build_indicator_data hs ls cs).lookup "CCI-20" = none) ∧
    (calculate_weighted_sentiment ((build_indicator_data hs ls cs).map
        (fun q => (q.1, q.2.category))) =
      sentiment_spec ((build_indicator_data hs ls cs).map (fun q => (q.1, q.2.category)))) := by
  refine ⟨⟨?_, ?_, ?_, ?_⟩, ⟨?_, ?_, ?_, ?_, ?_⟩, ?_, weighted_sentiment_eq_spec _⟩
  · intro h
    unfold build_indicator_data
    dsimp only
    repeat' apply lookup_append_none
    · exact lookup_cci_segment_ne _ _ _ _ (by decide)
    · exact lookup_ma_segment_short _ _ _ _ (by omega)
    · exact lookup_ma_segment_ne _ _ _ _ (by decide)
    · exact lookup_ma_segment_ne _ _ _ _ (by decide)
    · exact lookup_ma_segment_ne _ _ _ _ (by decide)
    · exact lookup_crossover_ne _ _ _ _ _ (by decide)
    · exact lookup_crossover_ne _ _ _ _ _ (by decide)
    · exact lookup_crossover_ne _ _ _ _ _ (by decide)
    · exact lookup_crossover_ne _ _ _ _ _ (by decide)
    · exact lookup_crossover_ne _ _ _ _ _ (by decide)
  · intro h
    unfold build_indicator_data
    dsimp only
    repeat' apply lookup_append_none
    · exact lookup_cci_segment_ne _ _ _ _ (by decide)
    · exact lookup_ma_segment_ne _ _ _ _ (by decide)
    · exact lookup_ma_segment_short _ _ _ _ (by omega)
    · exact lookup_ma_segment_ne _ _ _ _ (by decide)
    · exact lookup_ma_segment_ne _ _ _ _ (by decide)
    · exact lookup_crossover_ne _ _ _ _ _ (by decide)
    · exact lookup_crossover_ne _ _ _ _ _ (by decide)
    · exact lookup_crossover_ne _ _ _ _ _ (by decide)
    · exact lookup_crossover_ne _ _ _ _ _ (by decide)
    · exact lookup_crossover_ne _ _ _ _ _ (by decide)
  · intro h
    unfold build_indicator_data
    dsimp only
    repeat' apply lookup_append_none
    · exact lookup_cci_segment_ne _ _ _ _ (by decide)
    · exact lookup_ma_segment_ne _ _ _ _ (by decide)
    · exact lookup_ma_segment_ne _ _ _ _ (by decide)
    · exact lookup_ma_segment_short _ _ _ _ (by omega)
    · exact lookup_ma_segment_ne _ _ _ _ (by decide)
    · exact lookup_crossover_ne _ _ _ _ _ (by decide)
    · exact lookup_crossover_ne _ _ _ _ _ (by decide)
    · exact lookup_crossover_ne _ _ _ _ _ (by decide)
    · exact lookup_crossover_ne _ _ _ _ _ (by decide)
    · exact lookup_crossover_ne _ _ _ _ _ (by decide)
  · intro h
    unfold build_indicator_data
    dsimp only
    repeat' apply lookup_append_none
    · exact lookup_cci_segment_ne _ _ _ _ (by decide)
    · exact lookup_ma_segment_ne _ _ _ _ (by decide)
    · exact lookup_ma_segment_ne _ _ _ _ (by decide)
    · exact lookup_ma_segment_ne _ _ _ _ (by decide)
    · exact lookup_ma_segment_short _ _ _ _ (by omega)
    · exact lookup_crossover_ne _ _ _ _ _ (by decide)
    · exact lookup_crossover_ne _ _ _ _ _ (by decide)
    · exact lookup_crossover_ne _ _ _ _ _ (by decide)
    · exact lookup_crossover_ne _ _ _ _ _ (by decide)
    · exact lookup_crossover_ne _ _ _ _ _ (by decide)
  · intro h
    unfold build_indicator_data
    dsimp only
    repeat' apply lookup_append_none
    · exact lookup_cci_segment_ne _ _ _ _ (by decide)
    · exact lookup_ma_segment_ne _ _ _ _ (by decide)
    · exact lookup_ma_segment_ne _ _ _ _ (by decide)
    · exact lookup_ma_segment_ne _ _ _ _ (by decide)
    · exact lookup_ma_segment_ne _ _ _ _ (by decide)
    · exact lookup_crossover_short _ _ _ _ _ (by omega)
    · exact lookup_crossover_ne _ _ _ _ _ (by decide)
    · exact lookup_crossover_ne _ _ _ _ _ (by decide)
    · exact lookup_crossover_ne _ _ _ _ _ (by decide)
    · exact lookup_crossover_ne _ _ _ _ _ (by decide)
  · intro h
    unfold build_indicator_data
    dsimp only
    repeat' apply lookup_append_none
    · exact lookup_cci_segment_ne _ _ _ _ (by decide)
    · exact lookup_ma_segment_ne _ _ _ _ (by decide)
    · exact lookup_ma_segment_ne _ _ _ _ (by decide)
    · exact lookup_ma_segment_ne _ _ _ _ (by decide)
    · exact lookup_ma_segment_ne _ _ _ _ (by decide)
    · exact lookup_crossover_ne _ _ _ _ _ (by decide)
    · exact lookup_crossover_short _ _ _ _ _ (by omega)
    · exact lookup_crossover_ne _ _ _ _ _ (by decide)
    · exact lookup_crossover_ne _ _ _ _ _ (by decide)
    · exact lookup_crossover_ne _ _ _ _ _ (by decide)
  · intro h
    unfold build_indicator_data
    dsimp only
    repeat' apply lookup_append_none
    · exact lookup_cci_segment_ne _ _ _ _ (by decide)
    · exact lookup_ma_segment_ne _ _ _ _ (by decide)
    · exact lookup_ma_segment_ne _ _ _ _ (by decide)
    · exact lookup_ma_segment_ne _ _ _ _ (by decide)
    · exact lookup_ma_segment_ne _ _ _ _ (by decide)
    · exact lookup_crossover_ne _ _ _ _ _ (by decide)
    · exact lookup_crossover_ne _ _ _ _ _ (by decide)
    · exact lookup_crossover_short _ _ _ _ _ (by omega)
    · exact lookup_crossover_ne _ _ _ _ _ (by decide)
    · exact lookup_crossover_ne _ _ _ _ _ (by decide)
  · intro h
    unfold build_indicator_data
    dsimp only
    repeat' apply lookup_append_none
    · exact lookup_cci_segment_ne _ _ _ _ (by decide)
    · exact lookup_ma_segment_ne _ _ _ _ (by decide)
    · exact lookup_ma_segment_ne _ _ _ _ (by decide)
    · exact lookup_ma_segment_ne _ _ _ _ (by decide)
    · exact lookup_ma_segment_ne _ _ _ _ (by decide)
    · exact lookup_crossover_ne _ _ _ _ _ (by decide)
    · exact lookup_crossover_ne _ _ _ _ _ (by decide)
    · exact lookup_crossover_ne _ _ _ _ _ (by decide)
    · exact lookup_crossover_short _ _ _ _ _ (by omega)
    · exact lookup_crossover_ne _ _ _ _ _ (by decide)
  · intro h
    unfold build_indicator_data
    dsimp only
    repeat' apply lookup_append_none
    · exact lookup_cci_segment_ne _ _ _ _ (by decide)
    · exact lookup_ma_segment_ne _ _ _ _ (by decide)
    · exact lookup_ma_segment_ne _ _ _ _ (by decide)
    · exact lookup_ma_segment_ne _ _ _ _ (by decide)
    · exact lookup_ma_segment_ne _ _ _ _ (by decide)
    · exact lookup_crossover_ne _ _ _ _ _ (by decide)
    · exact lookup_crossover_ne _ _ _ _ _ (by decide)
    · exact lookup_crossover_ne _ _ _ _ _ (by decide)
    · exact lookup_crossover_ne _ _ _ _ _ (by decide)
    · exact lookup_crossover_short _ _ _ _ _ (by omega)
  · intro h
    unfold build_indicator_data
    dsimp only
    repeat' apply lookup_append_none
    · exact lookup_cci_segment_short _ _ _ _ (by omega)
    · exact lookup_ma_segment_ne _ _ _ _ (by decide)
    · exact lookup_ma_segment_ne _ _ _ _ (by decide)
    · exact lookup_ma_segment_ne _ _ _ _ (by decide)
    · exact lookup_ma_segment_ne _ _ _ _ (by decide)
    · exact lookup_crossover_ne _ _ _ _ _ (by decide)
    · exact lookup_crossover_ne _ _ _ _ _ (by decide)
    · exact lookup_crossover_ne _ _ _ _ _ (by decide)
    · exact lookup_crossover_ne _ _ _ _ _ (by decide)
    · exact lookup_crossover_ne _ _ _ _ _ (by decide)

/-- Witness for C9 on a three-bar series: every indicator is absent, and
the fusion equality is instantiated. -/
theorem c9_witness :
    (([100, 101, 102] : List Rat).length < 5 ∧ ([100, 101, 102] : List Rat).length < 20) ∧
    (build_indicator_data [100, 101, 102] [100, 101, 102] [100, 101, 102]).lookup "MA5"
      = none ∧
    (build_indicator_data [100, 101, 102] [100, 101, 102] [100, 101, 102]).lookup "CCI-20"
      = none ∧
    calculate_weighted_sentiment
        ((build_indicator_data [100, 101, 102] [100, 101, 102] [100, 101, 102]).map
          (fun q => (q.1, q.2.category))) =
      sentiment_spec
        ((build_indicator_data [100, 101, 102] [100, 101, 102] [100, 101, 102]).map
          (fun q => (q.1, q.2.category))) :=
  ⟨⟨by decide, by decide⟩,
   ((c9_insufficient_history [100, 101, 102] [100, 101, 102] [100, 101, 102]).1).1 (by decide),
   ((c9_insufficient_history [100, 101, 102] [100, 101, 102] [100, 101, 102]).2).2.1 (by decide),
   ((c9_insufficient_history [100, 101, 102] [100, 101, 102] [100, 101, 102]).2).2.2⟩

end GoldPredictor